import Mathlib

/-!
Hotel backend: room-availability resolver and booking lifecycle.

A shallow embedding of `src/routes/bookings.js`, of the booking routes of
`src/routes/admin/admin.js` and of the room-booking payment routes of
`src/routes/payments.js`.

* A JavaScript `Date` is represented by its time value, an integer number of
  milliseconds; an Invalid Date is `none`.  `findNextAvailableRoomDates` and
  `postBooking` compute with exact integers and describe the code as long as every
  date it builds stays within the range of a Date.
  `findNextAvailableRoomDatesChecked` and `postBookingChecked` add that range
  (8.64e15 ms either side of the epoch), the refusal of an Invalid Date by the
  store, and the refusal of a document by the Booking schema.
* The booking collection is a list of documents in insertion order; a document's
  `_id` is its position in the list (documents are never removed).
* String-valued fields (`status`, `paymentStatus`, `idVerified`, `role`) keep the
  literals of the source.
-/

namespace HotelBackend

/-! ## Data model -/

/-- Time value of a JavaScript Date in milliseconds, or none for an Invalid Date. -/
abbrev JsDate := Option Int

/-- One document of the Booking collection. -/
structure Booking where
  roomId : String
  userId : String
  checkIn : Int
  checkOut : Int
  status : String
  paymentStatus : String
  idVerified : String
  cancelledAt : Option Int
  guests : Int
  rooms : Int
  totalPrice : Int
  roomPrice : Int
  taxes : Int
  serviceCharges : Int
  guestName : String
  guestEmail : String
  guestPhone : String
  bookingDate : Int
  idProofUrl : Option String
  idProofType : Option String
  idProofUploadedAt : Option Int
  deriving DecidableEq, Repr

/-- The Booking collection: documents in insertion order, `_id` = position. -/
abbrev Store := List Booking

/-! ## Availability resolver (`bookings.js`, lines 77-113) -/

/-- The constant of line 77. -/
def ACTIVE_BOOKING_STATUSES : List String := ["pending", "confirmed", "checked-in"]

/-- The filter document of `Booking.find` (lines 89-95) and `Booking.findOne`
(lines 141-147): same room, active status, no `cancelledAt`,
`checkIn < nextCheckOut` and `checkOut > nextCheckIn`. -/
def overlapFilter (roomId : String) (nextCheckIn nextCheckOut : Int) (b : Booking) : Bool :=
  b.roomId == roomId
    && ACTIVE_BOOKING_STATUSES.contains b.status
    && b.cancelledAt.isNone
    && decide (b.checkIn < nextCheckOut)
    && decide (b.checkOut > nextCheckIn)

/-- The query `Booking.find({...})` of lines 89-97. -/
def findOverlaps (store : Store) (roomId : String) (nextCheckIn nextCheckOut : Int) :
    List Booking :=
  store.filter (overlapFilter roomId nextCheckIn nextCheckOut)

/-- The `overlaps.reduce(...)` of lines 103-106, seeded with `new Date(nextCheckOut)`. -/
def latestCheckOut (overlaps : List Booking) (nextCheckOut : Int) : Int :=
  overlaps.foldl
    (fun latest booking => if booking.checkOut > latest then booking.checkOut else latest)
    nextCheckOut

/-- The `for` loop of lines 88-110 with `rounds` iterations left, in exact integer
arithmetic; `searchLoopChecked` adds the range of a Date. -/
def searchLoop (store : Store) (roomId : String) (durationMs : Int) :
    Nat → Int → Int → Int × Int
  | 0, nextCheckIn, nextCheckOut => (nextCheckIn, nextCheckOut)
  | rounds + 1, nextCheckIn, nextCheckOut =>
    let overlaps := findOverlaps store roomId nextCheckIn nextCheckOut
    if overlaps.length = 0 then
      (nextCheckIn, nextCheckOut)
    else
      let latest := latestCheckOut overlaps nextCheckOut
      searchLoop store roomId durationMs rounds latest (latest + durationMs)

/-- The function `findNextAvailableRoomDates` (lines 79-113).  When either date is
invalid `durationMs` is NaN and the arguments are returned as they are.  The search
is in exact integer arithmetic: this is what the code returns whenever it returns two
valid dates (`findNextAvailableRoomDatesChecked` adds the range of a Date). -/
def findNextAvailableRoomDates (store : Store) (roomId : String)
    (checkInDate checkOutDate : JsDate) : JsDate × JsDate :=
  match checkInDate, checkOutDate with
  | some ci, some co =>
    let durationMs := co - ci
    if durationMs ≤ 0 then
      (checkInDate, checkOutDate)
    else
      let r := searchLoop store roomId durationMs 50 ci co
      (some r.1, some r.2)
  | _, _ => (checkInDate, checkOutDate)

/-- What one run of the resolver did: its result, the number of `Booking.find` queries it
issued, and whether the loop was left through the `break` of line 100. -/
structure ResolverRun where
  result : JsDate × JsDate
  queries : Nat
  leftByBreak : Bool
  deriving DecidableEq, Repr

/-- The loop of lines 88-110, also counting the queries issued so far. -/
def searchLoopRun (store : Store) (roomId : String) (durationMs : Int) :
    Nat → Int → Int → Nat → ResolverRun
  | 0, nextCheckIn, nextCheckOut, issued =>
    { result := (some nextCheckIn, some nextCheckOut), queries := issued, leftByBreak := false }
  | rounds + 1, nextCheckIn, nextCheckOut, issued =>
    let overlaps := findOverlaps store roomId nextCheckIn nextCheckOut
    if overlaps.length = 0 then
      { result := (some nextCheckIn, some nextCheckOut), queries := issued + 1,
        leftByBreak := true }
    else
      let latest := latestCheckOut overlaps nextCheckOut
      searchLoopRun store roomId durationMs rounds latest (latest + durationMs) (issued + 1)

/-- The function `findNextAvailableRoomDates` together with its query count and the way
its loop ended; on the early return of line 82 no query is issued. -/
def findNextAvailableRoomDatesRun (store : Store) (roomId : String)
    (checkInDate checkOutDate : JsDate) : ResolverRun :=
  match checkInDate, checkOutDate with
  | some ci, some co =>
    let durationMs := co - ci
    if durationMs ≤ 0 then
      { result := (checkInDate, checkOutDate), queries := 0, leftByBreak := false }
    else
      searchLoopRun store roomId durationMs 50 ci co 0
  | _, _ => { result := (checkInDate, checkOutDate), queries := 0, leftByBreak := false }

/-- Whether the interval `[checkIn, checkOut)` overlaps no active booking of the room. -/
def isFree (store : Store) (roomId : String) (checkIn checkOut : Int) : Prop :=
  ∀ b ∈ store, overlapFilter roomId checkIn checkOut b = false

instance (store : Store) (roomId : String) (checkIn checkOut : Int) :
    Decidable (isFree store roomId checkIn checkOut) := by
  unfold isFree; infer_instance

/-! ## Booking lifecycle handlers -/

/-- The authenticated caller `req.user`. -/
structure User where
  id : String
  role : String
  deriving DecidableEq, Repr

/-- What a handler answers: `res.status(code).json({ message })`, a booking document
sent with `res.json` / `res.status(201).json`, or the error path `next(err)`. -/
inductive Response
  | rejected (code : Nat) (message : String)
  | ok (code : Nat) (booking : Booking)
  | failed
  deriving DecidableEq, Repr

/-- The status code of an answer, none on the error path. -/
def Response.code : Response → Option Nat
  | .rejected code _ => some code
  | .ok code _ => some code
  | .failed => none

/-- The booking document carried by an answer, if any. -/
def Response.document : Response → Option Booking
  | .ok _ booking => some booking
  | _ => none

/-- A date field of the request body: whether the raw value is truthy, and the time
value of `new Date(value)`. -/
structure DateInput where
  truthy : Bool
  date : JsDate
  deriving DecidableEq, Repr

/-- A numeric field of the request body, by the cases the test of lines 171-173 tells
apart; `value n` is any other value `v`, with `n` the number `Number(v)` when it is
finite and none otherwise. -/
inductive NumericInput
  | undefined
  | null
  | emptyString
  | value (number : Option Int)
  deriving DecidableEq, Repr

/-- The body of `POST /api/bookings` (lines 118-131).  For the text fields the empty
string stands for every falsy value. -/
structure CreateBody where
  roomId : String
  checkIn : DateInput
  checkOut : DateInput
  guests : NumericInput
  rooms : NumericInput
  totalPrice : NumericInput
  roomPrice : NumericInput
  taxes : NumericInput
  serviceCharges : NumericInput
  guestName : String
  guestEmail : String
  guestPhone : String
  deriving DecidableEq, Repr

/-- The predicate inside `numericFields.some` (lines 171-173). -/
def NumericInput.isBad : NumericInput → Bool
  | .undefined => true
  | .null => true
  | .emptyString => true
  | .value none => true
  | .value (some _) => false

/-- The number stored for a numeric field that passed validation. -/
def NumericInput.toNumber : NumericInput → Int
  | .value (some n) => n
  | _ => 0

/-- The flag `missingRequired` of lines 164-173. -/
def missingRequired (body : CreateBody) : Bool :=
  body.roomId == ""
    || !body.checkIn.truthy
    || !body.checkOut.truthy
    || body.guestName == ""
    || body.guestEmail == ""
    || body.guestPhone == ""
    || [body.guests, body.rooms, body.totalPrice, body.roomPrice, body.taxes,
        body.serviceCharges].any NumericInput.isBad

/-- Modelled from the spec: the defaults of the Booking schema (`models/Booking.js` is not
among the sources).  A new document has `idVerified` pending and carries neither
`cancelledAt` nor an ID proof. -/
def newBookingDocument (user : User) (body : CreateBody) (checkIn checkOut now : Int) :
    Booking :=
  { roomId := body.roomId, userId := user.id, checkIn := checkIn, checkOut := checkOut,
    status := "confirmed", paymentStatus := "pending", idVerified := "pending",
    cancelledAt := none,
    guests := body.guests.toNumber, rooms := body.rooms.toNumber,
    totalPrice := body.totalPrice.toNumber, roomPrice := body.roomPrice.toNumber,
    taxes := body.taxes.toNumber, serviceCharges := body.serviceCharges.toNumber,
    guestName := body.guestName, guestEmail := body.guestEmail,
    guestPhone := body.guestPhone, bookingDate := now,
    idProofUrl := none, idProofType := none, idProofUploadedAt := none }

/-- The handler of `POST /api/bookings` (lines 117-210).  A query or a document holding
an Invalid Date is refused by the store, which takes the handler to `next(err)`.  The
resolver is the one in exact arithmetic and the schema is taken to accept the body:
`postBookingChecked` adds the range of a Date and the refusal by the schema, and
answers 201 only where this handler does. -/
def postBooking (store : Store) (user : User) (body : CreateBody) (now : Int) :
    Store × Response :=
  if user.role = "admin" then
    (store, .rejected 403 "Admins cannot create bookings")
  else
    match body.checkIn.date, body.checkOut.date with
    | some ci, some co =>
      let existingBooking := store.find? (overlapFilter body.roomId ci co)
      let adjusted :=
        if existingBooking.isSome then
          findNextAvailableRoomDates store body.roomId (some ci) (some co)
        else
          (some ci, some co)
      if missingRequired body then
        (store, .rejected 400 "Missing required booking fields")
      else
        match adjusted with
        | (some checkInDate, some checkOutDate) =>
          let booking := newBookingDocument user body checkInDate checkOutDate now
          (store ++ [booking], .ok 201 booking)
        | _ => (store, .failed)
    | _, _ => (store, .failed)

/-- The list `allowedStatuses` of line 242 (and of `admin.js` line 484). -/
def allowedStatuses : List String :=
  ["pending", "confirmed", "checked-in", "checked-out", "cancelled"]

/-- The notification title chosen in lines 267-277; empty when none is sent. -/
def statusNotifTitle (status : String) : String :=
  if status = "cancelled" then "Booking Cancelled"
  else if status = "checked-in" then "Checked In"
  else if status = "checked-out" then "Checked Out"
  else ""

/-- The handler of `PATCH /api/bookings/:id/status` (lines 239-290).  `status` is none
when the body has no such field; `notificationFails` says whether
`Notification.create` throws. -/
def patchStatus (store : Store) (user : User) (id : Nat) (status : Option String)
    (now : Int) (notificationFails : Bool) : Store × Response :=
  match status with
  | none => (store, .rejected 400 "Invalid status")
  | some status =>
    if !allowedStatuses.contains status then
      (store, .rejected 400 "Invalid status")
    else
      match store[id]? with
      | none => (store, .rejected 404 "Booking not found")
      | some booking =>
        if booking.userId ≠ user.id then
          (store, .rejected 403 "Access denied")
        else if status = "checked-in" ∧ booking.idVerified ≠ "approved" then
          (store, .rejected 400 "ID verification is required before check-in")
        else
          let saved : Booking :=
            { booking with
              status := status
              cancelledAt := if status = "cancelled" then some now else none }
          if statusNotifTitle status ≠ "" ∧ notificationFails = true then
            (store.set id saved, .failed)
          else
            (store.set id saved, .ok 200 saved)

/-- The handler of `PATCH /api/bookings/:id/id-proof` (lines 293-323); `file` is the
stored file name of `req.file`. -/
def patchIdProof (store : Store) (user : User) (id : Nat) (idType : String)
    (file : Option String) (now : Int) : Store × Response :=
  if idType = "" then
    (store, .rejected 400 "ID type is required")
  else
    match file with
    | none => (store, .rejected 400 "ID proof file is required")
    | some filename =>
      match store[id]? with
      | none => (store, .rejected 404 "Booking not found")
      | some booking =>
        if booking.userId ≠ user.id then
          (store, .rejected 403 "Access denied")
        else
          let saved : Booking :=
            { booking with
              idProofUrl := some ("/uploads/ids/" ++ filename)
              idProofType := some idType
              idProofUploadedAt := some now
              idVerified := "pending" }
          (store.set id saved, .ok 200 saved)

/-- The list `allowedStatuses` of line 329. -/
def allowedPaymentStatuses : List String := ["pending", "paid", "failed"]

/-- The notification title chosen in lines 349-356; empty when none is sent. -/
def paymentNotifTitle (paymentStatus : String) : String :=
  if paymentStatus = "paid" then "Payment Successful"
  else if paymentStatus = "failed" then "Payment Failed"
  else ""

/-- The handler of `PATCH /api/bookings/:id/payment-status` (lines 326-369). -/
def patchPaymentStatus (store : Store) (user : User) (id : Nat)
    (paymentStatus : Option String) (notificationFails : Bool) : Store × Response :=
  match paymentStatus with
  | none => (store, .rejected 400 "Invalid payment status")
  | some paymentStatus =>
    if !allowedPaymentStatuses.contains paymentStatus then
      (store, .rejected 400 "Invalid payment status")
    else
      match store[id]? with
      | none => (store, .rejected 404 "Booking not found")
      | some booking =>
        if booking.userId ≠ user.id then
          (store, .rejected 403 "Access denied")
        else
          let saved : Booking := { booking with paymentStatus := paymentStatus }
          if paymentNotifTitle paymentStatus ≠ "" ∧ notificationFails = true then
            (store.set id saved, .failed)
          else
            (store.set id saved, .ok 200 saved)

/-- The handler of `PATCH /api/admin/bookings/:id/status` (`admin.js`, lines 481-504),
behind the `requireAdmin` middleware of line 236. -/
def adminPatchStatus (store : Store) (user : User) (id : Nat) (status : Option String) :
    Store × Response :=
  if user.role ≠ "admin" then
    (store, .rejected 403 "Admin access required")
  else
    match status with
    | none => (store, .rejected 400 "Invalid status")
    | some status =>
      if !allowedStatuses.contains status then
        (store, .rejected 400 "Invalid status")
      else
        match store[id]? with
        | none => (store, .rejected 404 "Booking not found")
        | some booking =>
          let updated : Booking := { booking with status := status }
          (store.set id updated, .ok 200 updated)

/-- The list `allowed` of `admin.js` line 509. -/
def allowedIdVerified : List String := ["pending", "approved", "rejected"]

/-- The handler of `PATCH /api/admin/bookings/:id/id-verified` (`admin.js`, lines
506-534), behind the `requireAdmin` middleware of line 236. -/
def adminPatchIdVerified (store : Store) (user : User) (id : Nat)
    (idVerified : Option String) : Store × Response :=
  if user.role ≠ "admin" then
    (store, .rejected 403 "Admin access required")
  else
    match idVerified with
    | none => (store, .rejected 400 "Invalid ID verification status")
    | some idVerified =>
      if !allowedIdVerified.contains idVerified then
        (store, .rejected 400 "Invalid ID verification status")
      else
        match store[id]? with
        | none => (store, .rejected 404 "Booking not found")
        | some existingBooking =>
          if existingBooking.idVerified = "approved" ∧ idVerified ≠ "approved" then
            (store, .rejected 400 "Approved ID verification cannot be changed")
          else
            let updated : Booking := { existingBooking with idVerified := idVerified }
            (store.set id updated, .ok 200 updated)

/-! ## Sequences of requests -/

/-- One request to one of the booking endpoints. -/
inductive Request
  | postBooking (user : User) (body : CreateBody) (now : Int)
  | patchStatus (user : User) (id : Nat) (status : Option String) (now : Int)
      (notificationFails : Bool)
  | patchIdProof (user : User) (id : Nat) (idType : String) (file : Option String)
      (now : Int)
  | patchPaymentStatus (user : User) (id : Nat) (paymentStatus : Option String)
      (notificationFails : Bool)
  | adminPatchStatus (user : User) (id : Nat) (status : Option String)
  | adminPatchIdVerified (user : User) (id : Nat) (idVerified : Option String)
  deriving DecidableEq, Repr

/-- The store after one request has been served. -/
def serve (store : Store) : Request → Store
  | .postBooking user body now => (postBooking store user body now).1
  | .patchStatus user id status now nf => (patchStatus store user id status now nf).1
  | .patchIdProof user id idType file now => (patchIdProof store user id idType file now).1
  | .patchPaymentStatus user id ps nf => (patchPaymentStatus store user id ps nf).1
  | .adminPatchStatus user id status => (adminPatchStatus store user id status).1
  | .adminPatchIdVerified user id v => (adminPatchIdVerified store user id v).1

/-- The store after a sequence of requests served one after the other. -/
def serveAll (store : Store) (requests : List Request) : Store :=
  requests.foldl serve store

/-- Whether a document is an active booking: status in `ACTIVE_BOOKING_STATUSES` and no
`cancelledAt`. -/
def isActive (b : Booking) : Bool :=
  ACTIVE_BOOKING_STATUSES.contains b.status && b.cancelledAt.isNone

/-- The overlap test of two bookings as half-open intervals. -/
def intervalsOverlap (a b : Booking) : Bool :=
  decide (a.checkIn < b.checkOut) && decide (a.checkOut > b.checkIn)

/-- The store invariant: no two distinct active bookings of the same room overlap. -/
def NoDoubleBooking (store : Store) : Prop :=
  ∀ i j : Fin store.length, i ≠ j →
    isActive (store.get i) = true → isActive (store.get j) = true →
    (store.get i).roomId = (store.get j).roomId →
    intervalsOverlap (store.get i) (store.get j) = false

instance (store : Store) : Decidable (NoDoubleBooking store) := by
  unfold NoDoubleBooking; infer_instance

/-- A booking document with the given room, interval and status; the other fields are
fixed sample values. -/
def sampleBooking (roomId : String) (checkIn checkOut : Int) (status : String) : Booking :=
  { roomId := roomId, userId := "u1", checkIn := checkIn, checkOut := checkOut,
    status := status, paymentStatus := "pending", idVerified := "pending",
    cancelledAt := none, guests := 2, rooms := 1, totalPrice := 1000, roomPrice := 800,
    taxes := 100, serviceCharges := 100, guestName := "Asha", guestEmail := "a@x.in",
    guestPhone := "900", bookingDate := 0, idProofUrl := none, idProofType := none,
    idProofUploadedAt := none }

/-- Milliseconds in one day. -/
def msPerDay : Int := 86400000

/-- The active bookings of a room, in store order. -/
def activeBookingsOf (store : Store) (roomId : String) : List Booking :=
  store.filter (fun b => b.roomId == roomId && isActive b)

/-- A complete body of `POST /api/bookings` for the given room and dates. -/
def sampleBody (roomId : String) (checkIn checkOut : Int) : CreateBody :=
  { roomId := roomId, checkIn := ⟨true, some checkIn⟩, checkOut := ⟨true, some checkOut⟩,
    guests := .value (some 2), rooms := .value (some 1), totalPrice := .value (some 1000),
    roomPrice := .value (some 800), taxes := .value (some 100),
    serviceCharges := .value (some 100), guestName := "Asha", guestEmail := "a@x.in",
    guestPhone := "900" }

/-- The creation requests of user u1 for the unit intervals [start, start+1), ...,
[start+n-1, start+n) of one room. -/
def unitRequests (roomId : String) (start : Int) : Nat → List Request
  | 0 => []
  | n + 1 => .postBooking ⟨"u1", "user"⟩ (sampleBody roomId start (start + 1)) 0
      :: unitRequests roomId (start + 1) n

/-- Whether a request is an ID-proof upload. -/
def Request.isIdProofUpload : Request → Bool
  | .patchIdProof _ _ _ _ _ => true
  | _ => false

/-- Whether a status update asks for an active status on a booking that is not active. -/
def reactivates (store : Store) (id : Nat) (status : Option String) : Bool :=
  match status, store[id]? with
  | some s, some b => ACTIVE_BOOKING_STATUSES.contains s && !isActive b
  | _, _ => false

/-- Whether a creation request finds its interval free or else has positive duration
and meets at most 50 active bookings on its room. -/
def withinCap (store : Store) (body : CreateBody) : Bool :=
  match body.checkIn.date, body.checkOut.date with
  | some ci, some co =>
    (store.find? (overlapFilter body.roomId ci co)).isNone
      || (decide (0 < co - ci) && decide ((activeBookingsOf store body.roomId).length ≤ 50))
  | _, _ => true

/-- The requests under which the store invariant is kept: creations within the cap and
status updates that do not re-activate a booking; every other request. -/
def admissible (store : Store) : Request → Bool
  | .postBooking _ body _ => withinCap store body
  | .patchStatus _ id status _ _ => !reactivates store id status
  | .adminPatchStatus _ id status => !reactivates store id status
  | _ => true

/-- Whether each request of a sequence is admissible in the store it is served on. -/
def allAdmissible : Store → List Request → Bool
  | _, [] => true
  | store, r :: rest => admissible store r && allAdmissible (serve store r) rest

/-- How many active bookings of the room end after time `t`. -/
def endingAfter (store : Store) (roomId : String) (t : Int) : Nat :=
  store.countP (fun b => b.roomId == roomId && isActive b && decide (b.checkOut > t))

/-- A sequence of bookings is back-to-back when each one starts at the checkOut of the
one before it. -/
def BackToBack : List Booking → Prop
  | a :: b :: rest => b.checkIn = a.checkOut ∧ BackToBack (b :: rest)
  | _ => True

instance decidableBackToBack : (bookings : List Booking) → Decidable (BackToBack bookings)
  | [] => isTrue trivial
  | [_] => isTrue trivial
  | a :: b :: rest =>
    match decEq b.checkIn a.checkOut, decidableBackToBack (b :: rest) with
    | isTrue h1, isTrue h2 => isTrue ⟨h1, h2⟩
    | isFalse h1, _ => isFalse (fun h => h1 h.1)
    | _, isFalse h2 => isFalse (fun h => h2 h.2)

/-- The back-to-back bookings [start, start+1), ..., [start+n-1, start+n) of one room. -/
def unitChain (roomId : String) (start : Int) : Nat → List Booking
  | 0 => []
  | n + 1 => sampleBooking roomId start (start + 1) "confirmed" :: unitChain roomId (start + 1) n

/-! ## Reading a booking and paying for it (`bookings.js` 223-236, `payments.js` 13-117) -/

/-- The handler of `GET /api/bookings/:id` (`bookings.js`, lines 223-236); it reads the
store and does not change it. -/
def getBooking (store : Store) (user : User) (id : Nat) : Response :=
  match store[id]? with
  | none => .rejected 404 "Booking not found"
  | some booking =>
    if booking.userId ≠ user.id then
      .rejected 403 "Access denied"
    else
      .ok 200 booking

/-- The argument of `client.orders.create` (`payments.js`, lines 57-65); the receipt and
the notes are kept as the booking's id and the caller's id. -/
structure OrderRequest where
  amount : Int
  currency : String
  bookingId : Nat
  userId : String
  deriving DecidableEq, Repr

/-- The order the payment gateway returns. -/
structure GatewayOrder where
  id : String
  amount : Int
  currency : String
  deriving DecidableEq, Repr

/-- What the payment handlers take from outside the repository: the two environment
keys (empty when unset), the HMAC-SHA256 hex digest of a message under a key, and the
gateway's `orders.create` (none when it throws). -/
structure RazorpayEnv where
  keyId : String
  keySecret : String
  hmacSha256Hex : String → String → String
  createOrder : OrderRequest → Option GatewayOrder

/-- The function `getRazorpayClient` (`payments.js`, lines 13-24): the key secret, or
none when it throws because a key is not configured. -/
def getRazorpayClient (env : RazorpayEnv) : Option String :=
  if env.keyId = "" ∨ env.keySecret = "" then none else some env.keySecret

/-- What a payment handler answers. -/
inductive PaymentResponse
  | rejected (code : Nat) (message : String)
  | order (orderId : String) (amount : Int) (currency : String) (bookingId : Nat)
  | verified (paymentId : String)
  | failed
  deriving DecidableEq, Repr

/-- The handler of `POST /api/payments/razorpay/order` (`payments.js`, lines 27-76): its
answer and the orders it asked the gateway to create.  `bookingId` is none when the
body has none.  The store is read, not changed. -/
def razorpayOrder (env : RazorpayEnv) (store : Store) (user : User)
    (bookingId : Option Nat) : PaymentResponse × List OrderRequest :=
  match bookingId with
  | none => (.rejected 400 "bookingId is required", [])
  | some id =>
    match store[id]? with
    | none => (.rejected 404 "Booking not found", [])
    | some booking =>
      if booking.userId ≠ user.id then
        (.rejected 403 "Access denied", [])
      else if booking.status = "cancelled" then
        (.rejected 400 "Cancelled bookings cannot be paid", [])
      else if booking.idVerified ≠ "approved" then
        (.rejected 400 "ID verification is required before payment", [])
      else
        let amount := booking.totalPrice * 100
        if amount ≤ 0 then
          (.rejected 400 "Invalid booking amount", [])
        else
          match getRazorpayClient env with
          | none => (.failed, [])
          | some _ =>
            let request : OrderRequest :=
              { amount := amount, currency := "INR", bookingId := id, userId := user.id }
            match env.createOrder request with
            | none => (.failed, [request])
            | some order => (.order order.id order.amount order.currency id, [request])

/-- The handler of `POST /api/payments/razorpay/verify` (`payments.js`, lines 79-117).
For the three text fields the empty string stands for every falsy value. -/
def razorpayVerify (env : RazorpayEnv) (store : Store) (user : User)
    (bookingId : Option Nat)
    (razorpay_order_id razorpay_payment_id razorpay_signature : String) :
    Store × PaymentResponse :=
  match bookingId with
  | none => (store, .rejected 400 "Missing Razorpay verification fields")
  | some id =>
    if razorpay_order_id = "" ∨ razorpay_payment_id = "" ∨ razorpay_signature = "" then
      (store, .rejected 400 "Missing Razorpay verification fields")
    else
      match store[id]? with
      | none => (store, .rejected 404 "Booking not found")
      | some booking =>
        if booking.userId ≠ user.id then
          (store, .rejected 403 "Access denied")
        else if booking.status = "cancelled" then
          (store, .rejected 400 "Cancelled bookings cannot be paid")
        else
          match getRazorpayClient env with
          | none => (store, .failed)
          | some keySecret =>
            let expected :=
              env.hmacSha256Hex keySecret (razorpay_order_id ++ "|" ++ razorpay_payment_id)
            if expected ≠ razorpay_signature then
              (store, .rejected 400 "Invalid Razorpay signature")
            else
              let saved : Booking := { booking with paymentStatus := "paid" }
              (store.set id saved, .verified razorpay_payment_id)

/-- A configured payment environment: the digest of a message is the message itself
and the gateway accepts every order. -/
def sampleEnv : RazorpayEnv :=
  { keyId := "key", keySecret := "secret",
    hmacSha256Hex := fun _ message => message,
    createOrder := fun request => some ⟨"order_1", request.amount, request.currency⟩ }

/-- The candidate check-ins the loop of lines 88-110 goes through, in order, with
`rounds` iterations left. -/
def candidateStarts (store : Store) (roomId : String) (durationMs : Int) :
    Nat → Int → Int → List Int
  | 0, nextCheckIn, _ => [nextCheckIn]
  | rounds + 1, nextCheckIn, nextCheckOut =>
    let overlaps := findOverlaps store roomId nextCheckIn nextCheckOut
    if overlaps.length = 0 then
      [nextCheckIn]
    else
      let latest := latestCheckOut overlaps nextCheckOut
      nextCheckIn :: candidateStarts store roomId durationMs rounds latest (latest + durationMs)

/-! ## The resolver and the creation handler within the range of a Date -/

/-- The largest time value of a Date: 8.64e15 ms either side of the epoch. -/
def maxTimeValue : Int := 8640000000000000

/-- The Date built by `new Date(t)` from a number of milliseconds: an Invalid Date
outside the range. -/
def dateOfTime (t : Int) : JsDate :=
  if -maxTimeValue ≤ t ∧ t ≤ maxTimeValue then some t else none

/-- How a call of the resolver ends: with the object of line 112, or with the
rejection of a `Booking.find` that was handed an Invalid Date. -/
inductive ResolverOutcome
  | returned (checkInDate checkOutDate : JsDate)
  | threw
  deriving DecidableEq, Repr

/-- The outcome of a call of the resolver and the number of queries it issued. -/
structure CheckedRun where
  outcome : ResolverOutcome
  queries : Nat
  deriving DecidableEq, Repr

/-- The loop of lines 88-110 with `nextCheckOut` built by `new Date` (line 109).  The
query of a round whose `nextCheckOut` is an Invalid Date is issued and refused.
`nextCheckIn` is the seed or the checkOut of a stored booking, a valid time value.
The sum of line 109 is taken in exact integers: for arguments that are Dates it is
exact as a double whenever it lies within the range, and lies outside the range
whenever it is not. -/
def searchLoopChecked (store : Store) (roomId : String) (durationMs : Int) :
    Nat → Int → JsDate → Nat → CheckedRun
  | 0, nextCheckIn, nextCheckOut, issued =>
    { outcome := .returned (some nextCheckIn) nextCheckOut, queries := issued }
  | _ + 1, _, none, issued =>
    { outcome := .threw, queries := issued + 1 }
  | rounds + 1, nextCheckIn, some nextCheckOut, issued =>
    let overlaps := findOverlaps store roomId nextCheckIn nextCheckOut
    if overlaps.length = 0 then
      { outcome := .returned (some nextCheckIn) (some nextCheckOut), queries := issued + 1 }
    else
      let latest := latestCheckOut overlaps nextCheckOut
      searchLoopChecked store roomId durationMs rounds latest
        (dateOfTime (latest + durationMs)) (issued + 1)

/-- The function `findNextAvailableRoomDates` (lines 79-113) with the range of a Date
and the refusal of an Invalid Date by the store. -/
def findNextAvailableRoomDatesChecked (store : Store) (roomId : String)
    (checkInDate checkOutDate : JsDate) : CheckedRun :=
  match checkInDate, checkOutDate with
  | some ci, some co =>
    let durationMs := co - ci
    if durationMs ≤ 0 then
      { outcome := .returned checkInDate checkOutDate, queries := 0 }
    else
      searchLoopChecked store roomId durationMs 50 ci (some co) 0
  | _, _ => { outcome := .returned checkInDate checkOutDate, queries := 0 }

/-- The handler of `POST /api/bookings` (lines 117-210) with the checked resolver.
`schemaAccepts` stands for the Booking schema, which is not among the sources: whether
`Booking.create` accepts the values of the body (a value such as `[2]` passes the
test of lines 171-173 and is refused by a Number path).  A rejection by the resolver
or by `Booking.create` takes the handler to `next(err)`. -/
def postBookingChecked (schemaAccepts : CreateBody → Bool) (store : Store) (user : User)
    (body : CreateBody) (now : Int) : Store × Response :=
  if user.role = "admin" then
    (store, .rejected 403 "Admins cannot create bookings")
  else
    match body.checkIn.date, body.checkOut.date with
    | some ci, some co =>
      let existingBooking := store.find? (overlapFilter body.roomId ci co)
      let adjusted :=
        if existingBooking.isSome then
          (findNextAvailableRoomDatesChecked store body.roomId (some ci) (some co)).outcome
        else
          .returned (some ci) (some co)
      match adjusted with
      | .threw => (store, .failed)
      | .returned checkInDate checkOutDate =>
        if missingRequired body then
          (store, .rejected 400 "Missing required booking fields")
        else
          match checkInDate, checkOutDate with
          | some a, some b =>
            if schemaAccepts body then
              (store ++ [newBookingDocument user body a b now],
               .ok 201 (newBookingDocument user body a b now))
            else
              (store, .failed)
          | _, _ => (store, .failed)
    | _, _ => (store, .failed)

/-! ## The reduce of lines 103-106 -/

theorem latestCheckOut_nil (seed : Int) : latestCheckOut [] seed = seed := rfl

theorem latestCheckOut_cons (b : Booking) (rest : List Booking) (seed : Int) :
    latestCheckOut (b :: rest) seed
      = latestCheckOut rest (if b.checkOut > seed then b.checkOut else seed) := rfl

theorem seed_le_latestCheckOut (overlaps : List Booking) (seed : Int) :
    seed ≤ latestCheckOut overlaps seed := by
  induction overlaps generalizing seed with
  | nil => simp [latestCheckOut_nil]
  | cons b rest ih =>
    rw [latestCheckOut_cons]
    have h := ih (if b.checkOut > seed then b.checkOut else seed)
    by_cases hc : b.checkOut > seed
    · rw [if_pos hc] at h ⊢; omega
    · rw [if_neg hc] at h ⊢; omega

theorem checkOut_le_latestCheckOut (overlaps : List Booking) (seed : Int) (b : Booking)
    (hb : b ∈ overlaps) : b.checkOut ≤ latestCheckOut overlaps seed := by
  induction overlaps generalizing seed with
  | nil => cases hb
  | cons a rest ih =>
    rw [latestCheckOut_cons]
    rcases List.mem_cons.mp hb with h | h
    · subst h
      have h := seed_le_latestCheckOut rest (if b.checkOut > seed then b.checkOut else seed)
      by_cases hc : b.checkOut > seed
      · rw [if_pos hc] at h ⊢; omega
      · rw [if_neg hc] at h ⊢; omega
    · exact ih _ h

theorem latestCheckOut_eq_seed (overlaps : List Booking) (seed : Int)
    (h : ∀ b ∈ overlaps, b.checkOut ≤ seed) : latestCheckOut overlaps seed = seed := by
  induction overlaps generalizing seed with
  | nil => rfl
  | cons a rest ih =>
    rw [latestCheckOut_cons]
    have ha : a.checkOut ≤ seed := h a (List.mem_cons_self _ _)
    have hnot : ¬ a.checkOut > seed := by omega
    rw [if_neg hnot]
    exact ih seed (fun b hb => h b (List.mem_cons_of_mem _ hb))

theorem latestCheckOut_singleton (b : Booking) (seed : Int) :
    latestCheckOut [b] seed = max b.checkOut seed := by
  rw [latestCheckOut_cons, latestCheckOut_nil]
  split <;> omega

/-! ## The overlap query -/

theorem overlapFilter_eq_true_iff (roomId : String) (lo hi : Int) (b : Booking) :
    overlapFilter roomId lo hi b = true ↔
      b.roomId = roomId ∧ isActive b = true ∧ b.checkIn < hi ∧ b.checkOut > lo := by
  simp [overlapFilter, isActive, and_assoc]

theorem findOverlaps_eq_nil_iff (store : Store) (roomId : String) (lo hi : Int) :
    findOverlaps store roomId lo hi = [] ↔ isFree store roomId lo hi := by
  simp [findOverlaps, isFree, List.filter_eq_nil_iff]

theorem findOverlaps_length_eq_zero_iff (store : Store) (roomId : String) (lo hi : Int) :
    (findOverlaps store roomId lo hi).length = 0 ↔ isFree store roomId lo hi := by
  rw [List.length_eq_zero, findOverlaps_eq_nil_iff]

/-! ## One round of the loop -/

theorem searchLoop_of_free (store : Store) (roomId : String) (d : Int) (rounds : Nat)
    (ci co : Int) (h : isFree store roomId ci co) :
    searchLoop store roomId d rounds ci co = (ci, co) := by
  cases rounds with
  | zero => rfl
  | succ n =>
    have h0 := (findOverlaps_length_eq_zero_iff store roomId ci co).mpr h
    simp [searchLoop, h0]

theorem searchLoop_of_conflict (store : Store) (roomId : String) (d : Int) (n : Nat)
    (ci co : Int) (h : ¬ isFree store roomId ci co) :
    searchLoop store roomId d (n + 1) ci co
      = searchLoop store roomId d n
          (latestCheckOut (findOverlaps store roomId ci co) co)
          (latestCheckOut (findOverlaps store roomId ci co) co + d) := by
  have h0 : ¬ (findOverlaps store roomId ci co).length = 0 := by
    rw [findOverlaps_length_eq_zero_iff]; exact h
  simp [searchLoop, h0]

/-! ## The resolver on valid dates -/

theorem findNext_of_pos (store : Store) (roomId : String) (ci co : Int) (hD : 0 < co - ci) :
    findNextAvailableRoomDates store roomId (some ci) (some co)
      = (some (searchLoop store roomId (co - ci) 50 ci co).1,
         some (searchLoop store roomId (co - ci) 50 ci co).2) := by
  have h : ¬ co - ci ≤ 0 := by omega
  simp [findNextAvailableRoomDates, h]

/-- A request that conflicts, and whose first shifted candidate is free, resolves to
that candidate. -/
theorem findNext_shift_once (store : Store) (roomId : String) (ci co : Int)
    (hD : 0 < co - ci) (hconf : ¬ isFree store roomId ci co)
    (hfree : isFree store roomId
      (latestCheckOut (findOverlaps store roomId ci co) co)
      (latestCheckOut (findOverlaps store roomId ci co) co + (co - ci))) :
    findNextAvailableRoomDates store roomId (some ci) (some co)
      = (some (latestCheckOut (findOverlaps store roomId ci co) co),
         some (latestCheckOut (findOverlaps store roomId ci co) co + (co - ci))) := by
  rw [findNext_of_pos store roomId ci co hD,
    searchLoop_of_conflict store roomId (co - ci) 49 ci co hconf,
    searchLoop_of_free store roomId (co - ci) 49 _ _ hfree]

/-! ## Loop invariants -/

theorem searchLoop_duration (store : Store) (roomId : String) (d : Int) (rounds : Nat)
    (ci co : Int) (h : co = ci + d) :
    (searchLoop store roomId d rounds ci co).2
      = (searchLoop store roomId d rounds ci co).1 + d := by
  induction rounds generalizing ci co with
  | zero => exact h
  | succ n ih =>
    by_cases hfree : isFree store roomId ci co
    · rw [searchLoop_of_free store roomId d (n + 1) ci co hfree]; exact h
    · rw [searchLoop_of_conflict store roomId d n ci co hfree]
      exact ih _ _ rfl

theorem searchLoopRun_result (store : Store) (roomId : String) (d : Int) (rounds : Nat)
    (ci co : Int) (issued : Nat) :
    (searchLoopRun store roomId d rounds ci co issued).result
      = (some (searchLoop store roomId d rounds ci co).1,
         some (searchLoop store roomId d rounds ci co).2) := by
  induction rounds generalizing ci co issued with
  | zero => rfl
  | succ n ih =>
    by_cases h0 : (findOverlaps store roomId ci co).length = 0
    · simp [searchLoopRun, searchLoop, h0]
    · simp only [searchLoopRun, searchLoop, h0, if_false]
      exact ih _ _ _

theorem searchLoopRun_queries_le (store : Store) (roomId : String) (d : Int) (rounds : Nat)
    (ci co : Int) (issued : Nat) :
    (searchLoopRun store roomId d rounds ci co issued).queries ≤ issued + rounds := by
  induction rounds generalizing ci co issued with
  | zero => simp [searchLoopRun]
  | succ n ih =>
    by_cases h0 : (findOverlaps store roomId ci co).length = 0
    · simp only [searchLoopRun, h0, if_true]; omega
    · simp only [searchLoopRun, h0, if_false]
      have := ih (latestCheckOut (findOverlaps store roomId ci co) co)
        (latestCheckOut (findOverlaps store roomId ci co) co + d) (issued + 1)
      omega

theorem searchLoopRun_queries_of_cap (store : Store) (roomId : String) (d : Int)
    (rounds : Nat) (ci co : Int) (issued : Nat)
    (h : (searchLoopRun store roomId d rounds ci co issued).leftByBreak = false) :
    (searchLoopRun store roomId d rounds ci co issued).queries = issued + rounds := by
  induction rounds generalizing ci co issued with
  | zero => simp [searchLoopRun]
  | succ n ih =>
    by_cases h0 : (findOverlaps store roomId ci co).length = 0
    · simp [searchLoopRun, h0] at h
    · simp only [searchLoopRun, h0, if_false] at h ⊢
      have := ih _ _ _ h
      omega

theorem searchLoopRun_free_of_break (store : Store) (roomId : String) (d : Int)
    (rounds : Nat) (ci co : Int) (issued : Nat)
    (h : (searchLoopRun store roomId d rounds ci co issued).leftByBreak = true) :
    isFree store roomId (searchLoop store roomId d rounds ci co).1
      (searchLoop store roomId d rounds ci co).2 := by
  induction rounds generalizing ci co issued with
  | zero => simp [searchLoopRun] at h
  | succ n ih =>
    by_cases hfree : isFree store roomId ci co
    · rw [searchLoop_of_free store roomId d (n + 1) ci co hfree]; exact hfree
    · have h0 : ¬ (findOverlaps store roomId ci co).length = 0 := by
        rw [findOverlaps_length_eq_zero_iff]; exact hfree
      rw [searchLoop_of_conflict store roomId d n ci co hfree]
      simp only [searchLoopRun, h0, if_false] at h
      exact ih _ _ _ h

theorem findNextRun_result (store : Store) (roomId : String) (checkInDate checkOutDate : JsDate) :
    (findNextAvailableRoomDatesRun store roomId checkInDate checkOutDate).result
      = findNextAvailableRoomDates store roomId checkInDate checkOutDate := by
  cases checkInDate with
  | none => rfl
  | some ci =>
    cases checkOutDate with
    | none => rfl
    | some co =>
      by_cases hD : co - ci ≤ 0
      · simp [findNextAvailableRoomDatesRun, findNextAvailableRoomDates, hD]
      · simp only [findNextAvailableRoomDatesRun, findNextAvailableRoomDates, hD, if_false]
        exact searchLoopRun_result _ _ _ _ _ _ _

theorem findNextRun_of_pos (store : Store) (roomId : String) (ci co : Int) (hD : 0 < co - ci) :
    findNextAvailableRoomDatesRun store roomId (some ci) (some co)
      = searchLoopRun store roomId (co - ci) 50 ci co 0 := by
  have h : ¬ co - ci ≤ 0 := by omega
  simp [findNextAvailableRoomDatesRun, h]

/-! ## Counting the bookings still ahead of the candidate -/

theorem countP_lt_countP {α : Type} (p q : α → Bool) (l : List α)
    (himp : ∀ x ∈ l, p x = true → q x = true)
    (hex : ∃ x ∈ l, q x = true ∧ p x = false) : l.countP p < l.countP q := by
  induction l with
  | nil => obtain ⟨x, hx, _⟩ := hex; cases hx
  | cons a rest ih =>
    have hle : rest.countP p ≤ rest.countP q :=
      List.countP_mono_left (fun x hx => himp x (List.mem_cons_of_mem _ hx))
    rw [List.countP_cons, List.countP_cons]
    obtain ⟨x, hx, hq, hp⟩ := hex
    rcases List.mem_cons.mp hx with h | h
    · subst h
      simp [hq, hp]
      omega
    · have hlt := ih (fun y hy => himp y (List.mem_cons_of_mem _ hy)) ⟨x, h, hq, hp⟩
      have ha := himp a (List.mem_cons_self _ _)
      by_cases hpa : p a = true
      · simp [hpa, ha hpa]; omega
      · simp [hpa]; omega

theorem exists_conflict_of_not_isFree (store : Store) (roomId : String) (ci co : Int)
    (h : ¬ isFree store roomId ci co) :
    ∃ b ∈ store, overlapFilter roomId ci co b = true := by
  unfold isFree at h
  push_neg at h
  obtain ⟨b, hb, hne⟩ := h
  exact ⟨b, hb, by simpa using hne⟩

theorem isFree_of_endingAfter_eq_zero (store : Store) (roomId : String) (ci co : Int)
    (h : endingAfter store roomId ci = 0) : isFree store roomId ci co := by
  intro b hb
  cases hov : overlapFilter roomId ci co b with
  | false => rfl
  | true =>
    have h3 := (overlapFilter_eq_true_iff _ _ _ _).mp hov
    have hpos : 0 < endingAfter store roomId ci := by
      unfold endingAfter
      rw [List.countP_pos_iff]
      exact ⟨b, hb, by simp [h3.1, h3.2.1, h3.2.2.2]⟩
    omega

theorem endingAfter_latest_lt (store : Store) (roomId : String) (ci co : Int)
    (hlt : ci < co) (hconf : ¬ isFree store roomId ci co) :
    endingAfter store roomId (latestCheckOut (findOverlaps store roomId ci co) co)
      < endingAfter store roomId ci := by
  have hseed := seed_le_latestCheckOut (findOverlaps store roomId ci co) co
  obtain ⟨b, hb, hov⟩ := exists_conflict_of_not_isFree store roomId ci co hconf
  have hbmem : b ∈ findOverlaps store roomId ci co := List.mem_filter.mpr ⟨hb, hov⟩
  have hble := checkOut_le_latestCheckOut _ co b hbmem
  have h3 := (overlapFilter_eq_true_iff _ _ _ _).mp hov
  unfold endingAfter
  apply countP_lt_countP
  · intro x _ hx
    simp only [Bool.and_eq_true, decide_eq_true_eq] at hx ⊢
    exact ⟨hx.1, by omega⟩
  · refine ⟨b, hb, ?_, ?_⟩
    · simp [h3.1, h3.2.1, h3.2.2.2]
    · simp only [Bool.and_eq_false_iff, decide_eq_false_iff_not]
      right; omega

/-- When at most `rounds` active bookings of the room end after the candidate's start,
the loop ends on a free interval. -/
theorem searchLoop_isFree_of_endingAfter_le (store : Store) (roomId : String) (d : Int)
    (hd : 0 < d) (rounds : Nat) (ci co : Int) (hco : co = ci + d)
    (hcount : endingAfter store roomId ci ≤ rounds) :
    isFree store roomId (searchLoop store roomId d rounds ci co).1
      (searchLoop store roomId d rounds ci co).2 := by
  induction rounds generalizing ci co with
  | zero =>
    exact isFree_of_endingAfter_eq_zero store roomId ci co (by omega)
  | succ n ih =>
    by_cases hfree : isFree store roomId ci co
    · rw [searchLoop_of_free store roomId d (n + 1) ci co hfree]; exact hfree
    · rw [searchLoop_of_conflict store roomId d n ci co hfree]
      have hlt := endingAfter_latest_lt store roomId ci co (by omega) hfree
      exact ih _ _ rfl (by omega)

theorem endingAfter_le_activeBookingsOf (store : Store) (roomId : String) (t : Int) :
    endingAfter store roomId t ≤ (activeBookingsOf store roomId).length := by
  unfold endingAfter activeBookingsOf
  rw [← List.countP_eq_length_filter]
  apply List.countP_mono_left
  intro x _ hx
  simp only [Bool.and_eq_true, decide_eq_true_eq] at hx ⊢
  exact hx.1

/-- With at most 50 active bookings on the room, a request of positive duration is
resolved to a free interval. -/
theorem findNext_isFree_of_length_le (store : Store) (roomId : String) (ci co : Int)
    (hD : 0 < co - ci) (hlen : (activeBookingsOf store roomId).length ≤ 50) :
    isFree store roomId (searchLoop store roomId (co - ci) 50 ci co).1
      (searchLoop store roomId (co - ci) 50 ci co).2 := by
  apply searchLoop_isFree_of_endingAfter_le store roomId (co - ci) hD 50 ci co (by omega)
  exact le_trans (endingAfter_le_activeBookingsOf store roomId ci) hlen

/-! ## C1 -/

/-- C1, as the spec states it, fails: with the single active booking
[2024-01-01 10:00, 2024-01-03 10:00) on room 101, the request
[2024-01-02 10:00, 2024-01-04 10:00) is resolved to
[2024-01-04 10:00, 2024-01-06 10:00), not to [2024-01-03 10:00, 2024-01-05 10:00). -/
theorem c1_spec_scenario_refuted :
    findNextAvailableRoomDates
        [sampleBooking "101" 1704103200000 1704276000000 "confirmed"] "101"
        (some 1704189600000) (some 1704362400000)
      = (some 1704362400000, some 1704535200000)
    ∧ findNextAvailableRoomDates
        [sampleBooking "101" 1704103200000 1704276000000 "confirmed"] "101"
        (some 1704189600000) (some 1704362400000)
      ≠ (some 1704276000000, some 1704448800000) := by
  decide

/-- C1, amended: for a room whose only active booking is [Day1 10:00, Day3 10:00), the
request [Day2 10:00, Day4 10:00) is resolved to [Day4 10:00, Day6 10:00): the reduce is
seeded with the candidate's own checkOut, so the candidate moves to Day4.  Here `day1`
is the time value of Day1 10:00. -/
theorem c1_scenario_resolves_to_day4 (store : Store) (roomId : String) (day1 : Int)
    (hex : ∃ b ∈ store, b.roomId = roomId ∧ isActive b = true
      ∧ b.checkIn = day1 ∧ b.checkOut = day1 + 2 * msPerDay)
    (honly : ∀ b ∈ store, b.roomId = roomId → isActive b = true →
      b.checkIn = day1 ∧ b.checkOut = day1 + 2 * msPerDay) :
    findNextAvailableRoomDates store roomId
        (some (day1 + msPerDay)) (some (day1 + 3 * msPerDay))
      = (some (day1 + 3 * msPerDay), some (day1 + 5 * msPerDay)) := by
  simp only [msPerDay] at *
  have hconf : ¬ isFree store roomId (day1 + 86400000) (day1 + 3 * 86400000) := by
    obtain ⟨b, hb, hr, ha, hci, hco⟩ := hex
    intro hfree
    have h1 := hfree b hb
    have h2 : overlapFilter roomId (day1 + 86400000) (day1 + 3 * 86400000) b = true := by
      rw [overlapFilter_eq_true_iff]
      exact ⟨hr, ha, by omega, by omega⟩
    rw [h1] at h2
    cases h2
  have hlatest : latestCheckOut
      (findOverlaps store roomId (day1 + 86400000) (day1 + 3 * 86400000))
      (day1 + 3 * 86400000) = day1 + 3 * 86400000 := by
    apply latestCheckOut_eq_seed
    intro b hb
    have hb2 := List.mem_filter.mp hb
    have h3 := (overlapFilter_eq_true_iff _ _ _ _).mp hb2.2
    have h4 := honly b hb2.1 h3.1 h3.2.1
    omega
  have hD : 0 < (day1 + 3 * 86400000) - (day1 + 86400000) := by omega
  have hfree : isFree store roomId
      (latestCheckOut (findOverlaps store roomId (day1 + 86400000) (day1 + 3 * 86400000))
        (day1 + 3 * 86400000))
      (latestCheckOut (findOverlaps store roomId (day1 + 86400000) (day1 + 3 * 86400000))
        (day1 + 3 * 86400000) + ((day1 + 3 * 86400000) - (day1 + 86400000))) := by
    rw [hlatest]
    intro b hb
    cases hov : overlapFilter roomId (day1 + 3 * 86400000)
        (day1 + 3 * 86400000 + (day1 + 3 * 86400000 - (day1 + 86400000))) b with
    | false => rfl
    | true =>
      have h3 := (overlapFilter_eq_true_iff _ _ _ _).mp hov
      have h4 := honly b hb h3.1 h3.2.1
      omega
  rw [findNext_shift_once store roomId _ _ hD hconf hfree, hlatest]
  have e : day1 + 3 * 86400000 + (day1 + 3 * 86400000 - (day1 + 86400000))
      = day1 + 5 * 86400000 := by omega
  rw [e]

/-- C1, amended, at the dates of the scenario (Day1 = 2024-01-01). -/
theorem c1_scenario_resolves_to_day4_witness :
    findNextAvailableRoomDates
        [sampleBooking "101" 1704103200000 1704276000000 "confirmed"] "101"
        (some (1704103200000 + msPerDay)) (some (1704103200000 + 3 * msPerDay))
      = (some (1704103200000 + 3 * msPerDay), some (1704103200000 + 5 * msPerDay)) :=
  c1_scenario_resolves_to_day4
    [sampleBooking "101" 1704103200000 1704276000000 "confirmed"] "101" 1704103200000
    (by decide) (by decide)

/-! ## C2 -/

/-- C2, as stated, fails: the request [20, 40) overlaps exactly one active booking,
[10, 30), whose checkOut is E = 30, and the resolver returns [40, 60), not [30, 50). -/
theorem c2_single_conflict_refuted :
    findOverlaps [sampleBooking "7" 10 30 "pending"] "7" 20 40
      = [sampleBooking "7" 10 30 "pending"]
    ∧ findNextAvailableRoomDates [sampleBooking "7" 10 30 "pending"] "7" (some 20) (some 40)
      ≠ (some 30, some (30 + (40 - 20))) := by
  decide

/-- C2, amended: when the request [ci, co) of positive duration D overlaps exactly one
active booking of the room, with checkOut E, the first shifted candidate starts at
max(E, co), and when that candidate is itself free the resolver returns
[max(E, co), max(E, co) + D). -/
theorem c2_single_conflict_shifts_to_max (store : Store) (roomId : String) (ci co : Int)
    (b : Booking) (hD : 0 < co - ci)
    (hone : findOverlaps store roomId ci co = [b])
    (hfree : isFree store roomId (max b.checkOut co) (max b.checkOut co + (co - ci))) :
    findNextAvailableRoomDates store roomId (some ci) (some co)
      = (some (max b.checkOut co), some (max b.checkOut co + (co - ci))) := by
  have hconf : ¬ isFree store roomId ci co := by
    rw [← findOverlaps_eq_nil_iff, hone]
    exact List.cons_ne_nil _ _
  have hlatest : latestCheckOut (findOverlaps store roomId ci co) co = max b.checkOut co := by
    rw [hone, latestCheckOut_singleton]
  have h := findNext_shift_once store roomId ci co hD hconf (by rw [hlatest]; exact hfree)
  rw [hlatest] at h
  exact h

/-- C2, amended, at a booking that ends after the requested checkOut: the request
[20, 25) against [10, 30) resolves to [30, 35). -/
theorem c2_single_conflict_shifts_to_max_witness :
    findNextAvailableRoomDates [sampleBooking "7" 10 30 "pending"] "7" (some 20) (some 25)
      = (some (max (sampleBooking "7" 10 30 "pending").checkOut 25),
         some (max (sampleBooking "7" 10 30 "pending").checkOut 25 + (25 - 20))) :=
  c2_single_conflict_shifts_to_max [sampleBooking "7" 10 30 "pending"] "7" 20 25
    (sampleBooking "7" 10 30 "pending") (by decide) (by decide) (by decide)

/-! ## C3 -/

set_option maxRecDepth 100000 in
/-- C3, as stated, fails: on a room with 51 back-to-back active bookings
[0,1), [1,2), ..., [50,51), the request [0,1) is resolved, after 50 rounds, to [50,51),
which overlaps the last booking. -/
theorem c3_back_to_back_refuted :
    BackToBack (activeBookingsOf (unitChain "12" 0 51) "12")
    ∧ findNextAvailableRoomDates (unitChain "12" 0 51) "12" (some 0) (some 1)
        = (some 50, some 51)
    ∧ ¬ isFree (unitChain "12" 0 51) "12" 50 51 := by
  decide

/-- C3, amended: for every sequence of at most 50 back-to-back active bookings on a room
(the room's active bookings, in some order, form the sequence) and every request of
positive duration, the interval returned by findNextAvailableRoomDates overlaps no
active booking of that room, and at most 50 queries were issued. -/
theorem c3_back_to_back_free_up_to_cap (store : Store) (roomId : String) (ci co : Int)
    (chain : List Booking) (hD : 0 < co - ci)
    (hperm : chain.Perm (activeBookingsOf store roomId))
    (_hchain : BackToBack chain) (hlen : chain.length ≤ 50) :
    ∃ a b, findNextAvailableRoomDates store roomId (some ci) (some co) = (some a, some b)
      ∧ isFree store roomId a b
      ∧ (findNextAvailableRoomDatesRun store roomId (some ci) (some co)).queries ≤ 50 := by
  have hlen2 : (activeBookingsOf store roomId).length ≤ 50 := by
    rw [← hperm.length_eq]; exact hlen
  refine ⟨_, _, findNext_of_pos store roomId ci co hD,
    findNext_isFree_of_length_le store roomId ci co hD hlen2, ?_⟩
  rw [findNextRun_of_pos store roomId ci co hD]
  have h := searchLoopRun_queries_le store roomId (co - ci) 50 ci co 0
  omega

/-- C3, amended, on the three back-to-back bookings [0,1), [1,2), [2,3) and the
request [0,1). -/
theorem c3_back_to_back_free_up_to_cap_witness :
    ∃ a b, findNextAvailableRoomDates (unitChain "12" 0 3) "12" (some 0) (some 1)
        = (some a, some b)
      ∧ isFree (unitChain "12" 0 3) "12" a b
      ∧ (findNextAvailableRoomDatesRun (unitChain "12" 0 3) "12" (some 0) (some 1)).queries
          ≤ 50 :=
  c3_back_to_back_free_up_to_cap (unitChain "12" 0 3) "12" 0 1 (unitChain "12" 0 3)
    (by decide)
    ((by decide : activeBookingsOf (unitChain "12" 0 3) "12" = unitChain "12" 0 3)
      ▸ List.Perm.refl _)
    (by decide) (by decide)

/-! ## C4 -/

theorem find?_overlap_eq_none (store : Store) (roomId : String) (ci co : Int)
    (hfree : isFree store roomId ci co) :
    store.find? (overlapFilter roomId ci co) = none := by
  rw [List.find?_eq_none]
  intro b hb
  simp [hfree b hb]

/-- C4: when no active booking of the room overlaps [ci, co), the resolver returns
(ci, co) as given, and POST /api/bookings by a non-admin caller with complete fields
stores a booking with exactly the requested checkIn and checkOut. -/
theorem c4_free_interval_unchanged (store : Store) (roomId : String) (ci co : Int)
    (hfree : isFree store roomId ci co) :
    findNextAvailableRoomDates store roomId (some ci) (some co) = (some ci, some co)
    ∧ ∀ (user : User) (body : CreateBody) (now : Int),
        user.role ≠ "admin" → body.roomId = roomId →
        body.checkIn.date = some ci → body.checkOut.date = some co →
        missingRequired body = false →
        postBooking store user body now
          = (store ++ [newBookingDocument user body ci co now],
             .ok 201 (newBookingDocument user body ci co now))
        ∧ (newBookingDocument user body ci co now).checkIn = ci
        ∧ (newBookingDocument user body ci co now).checkOut = co := by
  constructor
  · by_cases hD : co - ci ≤ 0
    · simp [findNextAvailableRoomDates, hD]
    · rw [findNext_of_pos store roomId ci co (by omega),
        searchLoop_of_free store roomId (co - ci) 50 ci co hfree]
  · intro user body now hrole hroom hci hco hreq
    refine ⟨?_, rfl, rfl⟩
    subst hroom
    simp [postBooking, hrole, hci, hco, hreq, find?_overlap_eq_none store body.roomId ci co hfree]

/-- C4 on a store whose only booking ends where the request of user u2 starts. -/
theorem c4_free_interval_unchanged_witness :
    postBooking [sampleBooking "101" 10 30 "confirmed"] ⟨"u2", "user"⟩
        (sampleBody "101" 30 50) 7
      = ([sampleBooking "101" 10 30 "confirmed"]
            ++ [newBookingDocument ⟨"u2", "user"⟩ (sampleBody "101" 30 50) 30 50 7],
         .ok 201 (newBookingDocument ⟨"u2", "user"⟩ (sampleBody "101" 30 50) 30 50 7))
    ∧ (newBookingDocument ⟨"u2", "user"⟩ (sampleBody "101" 30 50) 30 50 7).checkIn = 30
    ∧ (newBookingDocument ⟨"u2", "user"⟩ (sampleBody "101" 30 50) 30 50 7).checkOut = 50 :=
  (c4_free_interval_unchanged [sampleBooking "101" 10 30 "confirmed"] "101" 30 50
    (by decide)).2 ⟨"u2", "user"⟩ (sampleBody "101" 30 50) 7 (by decide) rfl rfl rfl rfl

/-! ## C6 -/

/-- C6: for every request of positive duration, if the loop is left through the
break (a query returned no booking), the returned interval overlaps no active booking
of the room. -/
theorem c6_break_exit_is_free (store : Store) (roomId : String) (ci co : Int)
    (hD : 0 < co - ci)
    (hbreak : (findNextAvailableRoomDatesRun store roomId (some ci) (some co)).leftByBreak
      = true) :
    ∃ a b, findNextAvailableRoomDates store roomId (some ci) (some co) = (some a, some b)
      ∧ (findNextAvailableRoomDatesRun store roomId (some ci) (some co)).queries ≤ 50
      ∧ ∀ bk ∈ store, bk.roomId = roomId → isActive bk = true →
          ¬ (bk.checkIn < b ∧ bk.checkOut > a) := by
  rw [findNextRun_of_pos store roomId ci co hD] at hbreak ⊢
  refine ⟨_, _, findNext_of_pos store roomId ci co hD, ?_, ?_⟩
  · have h := searchLoopRun_queries_le store roomId (co - ci) 50 ci co 0
    omega
  · have hfree := searchLoopRun_free_of_break store roomId (co - ci) 50 ci co 0 hbreak
    intro bk hbk hroom hact hov
    have h1 := hfree bk hbk
    have h2 := (overlapFilter_eq_true_iff roomId _ _ bk).mpr ⟨hroom, hact, hov.1, hov.2⟩
    rw [h1] at h2
    cases h2

/-- C6 on a request that is shifted twice before a query comes back empty. -/
theorem c6_break_exit_is_free_witness :
    ∃ a b, findNextAvailableRoomDates (unitChain "9" 0 2) "9" (some 0) (some 1)
        = (some a, some b)
      ∧ (findNextAvailableRoomDatesRun (unitChain "9" 0 2) "9" (some 0) (some 1)).queries ≤ 50
      ∧ ∀ bk ∈ unitChain "9" 0 2, bk.roomId = "9" → isActive bk = true →
          ¬ (bk.checkIn < b ∧ bk.checkOut > a) :=
  c6_break_exit_is_free (unitChain "9" 0 2) "9" 0 1 (by decide) (by decide)

/-! ## What each handler does to the store -/

theorem find?_overlap_eq_none_iff (store : Store) (roomId : String) (ci co : Int) :
    store.find? (overlapFilter roomId ci co) = none ↔ isFree store roomId ci co := by
  rw [List.find?_eq_none]
  unfold isFree
  constructor
  · intro h b hb
    simpa using h b hb
  · intro h b hb
    simp [h b hb]

theorem postBooking_store (store : Store) (user : User) (body : CreateBody) (now : Int) :
    (postBooking store user body now).1 = store
    ∨ ∃ ci co a b, user.role ≠ "admin" ∧ missingRequired body = false
        ∧ body.checkIn.date = some ci ∧ body.checkOut.date = some co
        ∧ ((isFree store body.roomId ci co ∧ a = ci ∧ b = co)
            ∨ (¬ isFree store body.roomId ci co
                ∧ findNextAvailableRoomDates store body.roomId (some ci) (some co)
                    = (some a, some b)))
        ∧ postBooking store user body now
            = (store ++ [newBookingDocument user body a b now],
               .ok 201 (newBookingDocument user body a b now)) := by
  by_cases hrole : user.role = "admin"
  · left; simp [postBooking, hrole]
  · cases hci : body.checkIn.date with
    | none => left; simp [postBooking, hrole, hci]
    | some ci =>
      cases hco : body.checkOut.date with
      | none => left; simp [postBooking, hrole, hci, hco]
      | some co =>
        cases hreq : missingRequired body with
        | true => left; simp [postBooking, hrole, hci, hco, hreq]
        | false =>
          cases hf : store.find? (overlapFilter body.roomId ci co) with
          | none =>
            right
            have hfree := (find?_overlap_eq_none_iff store body.roomId ci co).mp hf
            refine ⟨ci, co, ci, co, hrole, rfl, rfl, rfl, Or.inl ⟨hfree, rfl, rfl⟩, ?_⟩
            simp [postBooking, hrole, hci, hco, hreq, hf]
          | some e =>
            have hnf : ¬ isFree store body.roomId ci co := by
              rw [← find?_overlap_eq_none_iff, hf]; simp
            rcases hres : findNextAvailableRoomDates store body.roomId (some ci) (some co)
              with ⟨x, y⟩
            cases x with
            | none => left; simp [postBooking, hrole, hci, hco, hreq, hf, hres]
            | some a =>
              cases y with
              | none => left; simp [postBooking, hrole, hci, hco, hreq, hf, hres]
              | some b =>
                right
                refine ⟨ci, co, a, b, hrole, rfl, rfl, rfl, Or.inr ⟨hnf, hres⟩, ?_⟩
                simp [postBooking, hrole, hci, hco, hreq, hf, hres]

theorem patchStatus_store (store : Store) (user : User) (id : Nat) (status : Option String)
    (now : Int) (nf : Bool) :
    (patchStatus store user id status now nf).1 = store
    ∨ ∃ s booking, status = some s ∧ allowedStatuses.contains s = true
        ∧ store[id]? = some booking ∧ booking.userId = user.id
        ∧ ¬ (s = "checked-in" ∧ booking.idVerified ≠ "approved")
        ∧ (patchStatus store user id status now nf).1
            = store.set id { booking with
                status := s
                cancelledAt := if s = "cancelled" then some now else none } := by
  cases status with
  | none => left; rfl
  | some s =>
    by_cases hall : s ∈ allowedStatuses
    · cases hb : store[id]? with
      | none => left; simp [patchStatus, hall, hb]
      | some booking =>
        by_cases hown : booking.userId = user.id
        · by_cases hgate : s = "checked-in" ∧ booking.idVerified ≠ "approved"
          · left
            have hg1 := hgate.1
            have hg2 := hgate.2
            simp [patchStatus, hall, hb, hown, hg1, hg2]
            split <;> rfl
          · right
            refine ⟨s, booking, rfl, by simpa using hall, rfl, hown, hgate, ?_⟩
            have hgate2 : ¬ (s = "checked-in" ∧ ¬ booking.idVerified = "approved") := hgate
            by_cases hn : ¬ statusNotifTitle s = "" ∧ nf = true
            · simp [patchStatus, hall, hb, hown, hgate2, hn]
            · simp [patchStatus, hall, hb, hown, hgate2, hn]
        · left; simp [patchStatus, hall, hb, hown]
    · left; simp [patchStatus, hall]

theorem adminPatchStatus_store (store : Store) (user : User) (id : Nat)
    (status : Option String) :
    (adminPatchStatus store user id status).1 = store
    ∨ ∃ s booking, user.role = "admin" ∧ status = some s ∧ allowedStatuses.contains s = true
        ∧ store[id]? = some booking
        ∧ adminPatchStatus store user id status
            = (store.set id { booking with status := s },
               .ok 200 { booking with status := s }) := by
  by_cases hrole : user.role = "admin"
  · cases status with
    | none => left; simp [adminPatchStatus, hrole]
    | some s =>
      by_cases hall : s ∈ allowedStatuses
      · cases hb : store[id]? with
        | none => left; simp [adminPatchStatus, hrole, hall, hb]
        | some booking =>
          right
          exact ⟨s, booking, hrole, rfl, by simpa using hall, rfl,
            by simp [adminPatchStatus, hrole, hall, hb]⟩
      · left; simp [adminPatchStatus, hrole, hall]
  · left; simp [adminPatchStatus, hrole]

theorem patchIdProof_store (store : Store) (user : User) (id : Nat) (idType : String)
    (file : Option String) (now : Int) :
    (patchIdProof store user id idType file now).1 = store
    ∨ ∃ filename booking, idType ≠ "" ∧ file = some filename ∧ store[id]? = some booking
        ∧ booking.userId = user.id
        ∧ patchIdProof store user id idType file now
            = (store.set id { booking with
                  idProofUrl := some ("/uploads/ids/" ++ filename)
                  idProofType := some idType
                  idProofUploadedAt := some now
                  idVerified := "pending" },
               .ok 200 { booking with
                  idProofUrl := some ("/uploads/ids/" ++ filename)
                  idProofType := some idType
                  idProofUploadedAt := some now
                  idVerified := "pending" }) := by
  by_cases ht : idType = ""
  · left; simp [patchIdProof, ht]
  · cases file with
    | none => left; simp [patchIdProof, ht]
    | some filename =>
      cases hb : store[id]? with
      | none => left; simp [patchIdProof, ht, hb]
      | some booking =>
        by_cases hown : booking.userId = user.id
        · right
          exact ⟨filename, booking, ht, rfl, rfl, hown, by simp [patchIdProof, ht, hb, hown]⟩
        · left; simp [patchIdProof, ht, hb, hown]

theorem patchPaymentStatus_store (store : Store) (user : User) (id : Nat)
    (paymentStatus : Option String) (nf : Bool) :
    (patchPaymentStatus store user id paymentStatus nf).1 = store
    ∨ ∃ ps booking, paymentStatus = some ps ∧ allowedPaymentStatuses.contains ps = true
        ∧ store[id]? = some booking ∧ booking.userId = user.id
        ∧ (patchPaymentStatus store user id paymentStatus nf).1
            = store.set id { booking with paymentStatus := ps } := by
  cases paymentStatus with
  | none => left; rfl
  | some ps =>
    by_cases hall : ps ∈ allowedPaymentStatuses
    · cases hb : store[id]? with
      | none => left; simp [patchPaymentStatus, hall, hb]
      | some booking =>
        by_cases hown : booking.userId = user.id
        · right
          refine ⟨ps, booking, rfl, by simpa using hall, rfl, hown, ?_⟩
          by_cases hn : ¬ paymentNotifTitle ps = "" ∧ nf = true
          · simp [patchPaymentStatus, hall, hb, hown, hn]
          · simp [patchPaymentStatus, hall, hb, hown, hn]
        · left; simp [patchPaymentStatus, hall, hb, hown]
    · left; simp [patchPaymentStatus, hall]

theorem adminPatchIdVerified_store (store : Store) (user : User) (id : Nat)
    (idVerified : Option String) :
    (adminPatchIdVerified store user id idVerified).1 = store
    ∨ ∃ v booking, user.role = "admin" ∧ idVerified = some v
        ∧ allowedIdVerified.contains v = true ∧ store[id]? = some booking
        ∧ ¬ (booking.idVerified = "approved" ∧ v ≠ "approved")
        ∧ adminPatchIdVerified store user id idVerified
            = (store.set id { booking with idVerified := v },
               .ok 200 { booking with idVerified := v }) := by
  by_cases hrole : user.role = "admin"
  · cases idVerified with
    | none => left; simp [adminPatchIdVerified, hrole]
    | some v =>
      by_cases hall : v ∈ allowedIdVerified
      · cases hb : store[id]? with
        | none => left; simp [adminPatchIdVerified, hrole, hall, hb]
        | some booking =>
          by_cases hlock : booking.idVerified = "approved" ∧ v ≠ "approved"
          · left
            have h1 := hlock.1
            have h2 := hlock.2
            simp [adminPatchIdVerified, hrole, hall, hb, h1, h2]
          · right
            have hlock2 : ¬ (booking.idVerified = "approved" ∧ ¬ v = "approved") := hlock
            exact ⟨v, booking, hrole, rfl, by simpa using hall, rfl, hlock,
              by simp [adminPatchIdVerified, hrole, hall, hb, hlock2]⟩
      · left; simp [adminPatchIdVerified, hrole, hall]
  · left; simp [adminPatchIdVerified, hrole]

/-! ## The store invariant under appends and in-place updates -/

theorem noDoubleBooking_iff (store : Store) :
    NoDoubleBooking store ↔
      ∀ (i j : Nat) (a b : Booking), store[i]? = some a → store[j]? = some b → i ≠ j →
        isActive a = true → isActive b = true → a.roomId = b.roomId →
        intervalsOverlap a b = false := by
  constructor
  · intro h i j a b ha hb hij haa hab hroom
    obtain ⟨hi, rfl⟩ := List.getElem?_eq_some.mp ha
    obtain ⟨hj, rfl⟩ := List.getElem?_eq_some.mp hb
    have hne : (⟨i, hi⟩ : Fin store.length) ≠ ⟨j, hj⟩ := by
      intro heq; exact hij (Fin.mk.inj heq)
    exact h ⟨i, hi⟩ ⟨j, hj⟩ hne haa hab hroom
  · intro h i j hij haa hab hroom
    have hne : i.val ≠ j.val := fun heq => hij (Fin.ext heq)
    exact h i.val j.val (store.get i) (store.get j)
      (by rw [List.get_eq_getElem]; exact List.getElem?_eq_getElem i.isLt)
      (by rw [List.get_eq_getElem]; exact List.getElem?_eq_getElem j.isLt)
      hne haa hab hroom

theorem noDoubleBooking_nil : NoDoubleBooking [] := by
  intro i; exact i.elim0

theorem getElem?_singleton_eq {k : Nat} {x y : Booking} (h : [x][k]? = some y) :
    k = 0 ∧ y = x := by
  cases k with
  | zero => simp at h; exact ⟨rfl, h.symm⟩
  | succ n => simp at h

theorem noDoubleBooking_append (store : Store) (n : Booking) (h : NoDoubleBooking store)
    (hnew : ∀ b ∈ store, isActive b = true → b.roomId = n.roomId →
      ¬ (b.checkIn < n.checkOut ∧ b.checkOut > n.checkIn)) :
    NoDoubleBooking (store ++ [n]) := by
  rw [noDoubleBooking_iff] at h ⊢
  intro i j a b ha hb hij haa hab hroom
  rw [List.getElem?_append] at ha hb
  by_cases hi : i < store.length
  · rw [if_pos hi] at ha
    by_cases hj : j < store.length
    · rw [if_pos hj] at hb
      exact h i j a b ha hb hij haa hab hroom
    · rw [if_neg hj] at hb
      obtain ⟨_, rfl⟩ := getElem?_singleton_eq hb
      have hx := hnew a (List.getElem?_mem ha) haa hroom
      simp only [intervalsOverlap, Bool.and_eq_false_iff, decide_eq_false_iff_not]
      by_contra hc
      push_neg at hc
      exact hx ⟨hc.1, hc.2⟩
  · rw [if_neg hi] at ha
    obtain ⟨hi0, rfl⟩ := getElem?_singleton_eq ha
    by_cases hj : j < store.length
    · rw [if_pos hj] at hb
      have hx := hnew b (List.getElem?_mem hb) hab hroom.symm
      simp only [intervalsOverlap, Bool.and_eq_false_iff, decide_eq_false_iff_not]
      by_contra hc
      push_neg at hc
      exact hx ⟨hc.2, hc.1⟩
    · rw [if_neg hj] at hb
      obtain ⟨hj0, _⟩ := getElem?_singleton_eq hb
      omega

theorem noDoubleBooking_set (store : Store) (id : Nat) (old new : Booking)
    (h : NoDoubleBooking store) (hold : store[id]? = some old)
    (hact : isActive new = true → isActive old = true)
    (hroom : new.roomId = old.roomId) (hci : new.checkIn = old.checkIn)
    (hco : new.checkOut = old.checkOut) :
    NoDoubleBooking (store.set id new) := by
  rw [noDoubleBooking_iff] at h ⊢
  intro i j a b ha hb hij haa hab hr
  rw [List.getElem?_set] at ha hb
  by_cases hi : id = i
  · subst hi
    have hj : ¬ id = j := hij
    rw [if_neg hj] at hb
    rw [if_pos rfl] at ha
    split at ha
    · cases ha
      have hx := h id j old b hold hb hij (hact haa) hab (by rw [← hroom]; exact hr)
      simpa [intervalsOverlap, hci, hco] using hx
    · cases ha
  · rw [if_neg hi] at ha
    by_cases hj : id = j
    · subst hj
      rw [if_pos rfl] at hb
      split at hb
      · cases hb
        have hx := h i id a old ha hold hij haa (hact hab) (by rw [hr, hroom])
        simpa [intervalsOverlap, hci, hco] using hx
      · cases hb
    · rw [if_neg hj] at hb
      exact h i j a b ha hb hij haa hab hr

/-! ## C7 -/

set_option maxRecDepth 1000000 in
/-- C7, as stated, fails, in three ways.  (1) User u1 books room 101 for [10, 30) and
cancels; user u2 books the same room for [10, 30); user u1 sets the first booking back
to confirmed: two active bookings of room 101 share an interval.  (2) After 51 creations
for [0,1), ..., [50,51) on room 101, a creation for [0,1) runs into the 50-round cap and
is stored on [50,51), over the last booking.  (3) With [0, 100) booked, a creation whose
checkIn and checkOut are both 50 conflicts, is returned as it is by the resolver
(duration not positive) and is stored inside the booked interval. -/
theorem c7_store_invariant_refuted :
    ¬ NoDoubleBooking
      (serveAll []
        [ .postBooking ⟨"u1", "user"⟩ (sampleBody "101" 10 30) 1,
          .patchStatus ⟨"u1", "user"⟩ 0 (some "cancelled") 2 false,
          .postBooking ⟨"u2", "user"⟩ (sampleBody "101" 10 30) 3,
          .patchStatus ⟨"u1", "user"⟩ 0 (some "confirmed") 4 false ])
    ∧ ¬ NoDoubleBooking
      (serveAll [] (unitRequests "101" 0 51
        ++ [.postBooking ⟨"u2", "user"⟩ (sampleBody "101" 0 1) 9]))
    ∧ ¬ NoDoubleBooking
      (serveAll []
        [ .postBooking ⟨"u1", "user"⟩ (sampleBody "101" 0 100) 1,
          .postBooking ⟨"u2", "user"⟩ (sampleBody "101" 50 50) 2 ]) := by
  decide

theorem postBooking_preserves (store : Store) (user : User) (body : CreateBody) (now : Int)
    (h : NoDoubleBooking store) (hcap : withinCap store body = true) :
    NoDoubleBooking (postBooking store user body now).1 := by
  rcases postBooking_store store user body now with hsame | ⟨ci, co, a, b, _, _, hci, hco, hcase, heq⟩
  · rw [hsame]; exact h
  · rw [heq]
    have hfree : isFree store body.roomId a b := by
      rcases hcase with ⟨hf, rfl, rfl⟩ | ⟨hnf, hres⟩
      · exact hf
      · have hnone : ¬ store.find? (overlapFilter body.roomId ci co) = none := by
          rw [find?_overlap_eq_none_iff]; exact hnf
        simp only [withinCap, hci, hco, Bool.or_eq_true, Option.isNone_iff_eq_none, hnone,
          false_or, Bool.and_eq_true, decide_eq_true_eq] at hcap
        have hfr := findNext_isFree_of_length_le store body.roomId ci co hcap.1 hcap.2
        rw [findNext_of_pos store body.roomId ci co hcap.1] at hres
        have h1 : (searchLoop store body.roomId (co - ci) 50 ci co).1 = a := by
          injection hres with h1 _; injection h1
        have h2 : (searchLoop store body.roomId (co - ci) 50 ci co).2 = b := by
          injection hres with _ h2; injection h2
        rw [h1, h2] at hfr
        exact hfr
    apply noDoubleBooking_append store _ h
    intro bk hbk hact hroom hov
    have h1 := hfree bk hbk
    have h2 := (overlapFilter_eq_true_iff body.roomId a b bk).mpr ⟨hroom, hact, hov.1, hov.2⟩
    rw [h1] at h2
    cases h2

theorem isActive_status_mem (b : Booking) (h : isActive b = true) :
    ACTIVE_BOOKING_STATUSES.contains b.status = true := by
  simp only [isActive, Bool.and_eq_true] at h
  exact h.1

theorem patchStatus_preserves (store : Store) (user : User) (id : Nat)
    (status : Option String) (now : Int) (nf : Bool)
    (h : NoDoubleBooking store) (hadm : reactivates store id status = false) :
    NoDoubleBooking (patchStatus store user id status now nf).1 := by
  rcases patchStatus_store store user id status now nf with hsame | ⟨s, booking, hs, _, hb, _, _, heq⟩
  · rw [hsame]; exact h
  · rw [heq]
    refine noDoubleBooking_set store id booking _ h hb ?_ ?_ ?_ ?_ <;> try rfl
    intro hact
    have hmem := isActive_status_mem _ hact
    simp only [reactivates, hs, hb, Bool.and_eq_false_iff] at hadm
    rcases hadm with h1 | h1
    · rw [h1] at hmem; cases hmem
    · simpa using h1

theorem adminPatchStatus_preserves (store : Store) (user : User) (id : Nat)
    (status : Option String)
    (h : NoDoubleBooking store) (hadm : reactivates store id status = false) :
    NoDoubleBooking (adminPatchStatus store user id status).1 := by
  rcases adminPatchStatus_store store user id status with hsame | ⟨s, booking, _, hs, _, hb, heq⟩
  · rw [hsame]; exact h
  · rw [heq]
    refine noDoubleBooking_set store id booking _ h hb ?_ ?_ ?_ ?_ <;> try rfl
    intro hact
    have hmem := isActive_status_mem _ hact
    simp only [reactivates, hs, hb, Bool.and_eq_false_iff] at hadm
    rcases hadm with h1 | h1
    · rw [h1] at hmem; cases hmem
    · simpa using h1

theorem serve_preserves (store : Store) (r : Request)
    (h : NoDoubleBooking store) (hadm : admissible store r = true) :
    NoDoubleBooking (serve store r) := by
  cases r with
  | postBooking user body now => exact postBooking_preserves store user body now h hadm
  | patchStatus user id status now nf =>
    exact patchStatus_preserves store user id status now nf h (by simpa [admissible] using hadm)
  | adminPatchStatus user id status =>
    exact adminPatchStatus_preserves store user id status h (by simpa [admissible] using hadm)
  | patchIdProof user id idType file now =>
    rcases patchIdProof_store store user id idType file now
      with hsame | ⟨f, booking, _, _, hb, _, heq⟩
    · simp only [serve]; rw [hsame]; exact h
    · simp only [serve]; rw [heq]
      refine noDoubleBooking_set store id booking _ h hb ?_ ?_ ?_ ?_ <;> try rfl
      exact fun x => x
  | patchPaymentStatus user id ps nf =>
    rcases patchPaymentStatus_store store user id ps nf
      with hsame | ⟨p, booking, _, _, hb, _, heq⟩
    · simp only [serve]; rw [hsame]; exact h
    · simp only [serve]; rw [heq]
      refine noDoubleBooking_set store id booking _ h hb ?_ ?_ ?_ ?_ <;> try rfl
      exact fun x => x
  | adminPatchIdVerified user id v =>
    rcases adminPatchIdVerified_store store user id v
      with hsame | ⟨w, booking, _, _, _, hb, _, heq⟩
    · simp only [serve]; rw [hsame]; exact h
    · simp only [serve]; rw [heq]
      refine noDoubleBooking_set store id booking _ h hb ?_ ?_ ?_ ?_ <;> try rfl
      exact fun x => x

theorem serveAll_preserves (store : Store) (requests : List Request)
    (h : NoDoubleBooking store) (hadm : allAdmissible store requests = true) :
    NoDoubleBooking (serveAll store requests) := by
  induction requests generalizing store with
  | nil => exact h
  | cons r rest ih =>
    simp only [allAdmissible, Bool.and_eq_true] at hadm
    exact ih (serve store r) (serve_preserves store r h hadm.1) hadm.2

/-- C7, amended: in every store reached from the empty store by a sequence of sequential
requests (creation, user and admin status updates, payment-status update, ID-proof
upload, admin ID-verification update) in which no status update asks for an active
status on a booking that is not active, and every creation whose interval conflicts
has positive duration and finds at most 50 active bookings on its room, no two
distinct active bookings of the same room overlap. -/
theorem c7_store_invariant_of_admissible (requests : List Request)
    (hadm : allAdmissible [] requests = true) :
    NoDoubleBooking (serveAll [] requests) :=
  serveAll_preserves [] requests noDoubleBooking_nil hadm

/-- C7, amended, on a run in which the second creation conflicts and is moved, the first
booking is cancelled and its ID proof, verification and payment are updated. -/
theorem c7_store_invariant_of_admissible_witness :
    NoDoubleBooking
      (serveAll []
        [ .postBooking ⟨"u1", "user"⟩ (sampleBody "101" 10 30) 1,
          .postBooking ⟨"u2", "user"⟩ (sampleBody "101" 20 40) 2,
          .patchIdProof ⟨"u1", "user"⟩ 0 "passport" (some "id-1.png") 3,
          .adminPatchIdVerified ⟨"a1", "admin"⟩ 0 (some "approved"),
          .patchPaymentStatus ⟨"u1", "user"⟩ 0 (some "paid") false,
          .adminPatchStatus ⟨"a1", "admin"⟩ 1 (some "checked-out"),
          .patchStatus ⟨"u1", "user"⟩ 0 (some "cancelled") 4 false ]) :=
  c7_store_invariant_of_admissible _ (by decide)

/-! ## C9 -/

/-- C9: the owner of a booking asks the user endpoint for status checked-in.  When
idVerified is not approved the answer is 400 'ID verification is required before
check-in' and the store is unchanged.  When idVerified is approved the stored status
becomes checked-in (and nothing else changes but cancelledAt, which is cleared), and
the answer is 200 with the saved booking as long as Notification.create does not
throw. -/
theorem c9_user_check_in_gate (store : Store) (user : User) (id : Nat) (booking : Booking)
    (now : Int) (nf : Bool)
    (hb : store[id]? = some booking) (hown : booking.userId = user.id) :
    (booking.idVerified ≠ "approved" →
      patchStatus store user id (some "checked-in") now nf
        = (store, .rejected 400 "ID verification is required before check-in"))
    ∧ (booking.idVerified = "approved" →
        (patchStatus store user id (some "checked-in") now nf).1
          = store.set id { booking with status := "checked-in", cancelledAt := none }
        ∧ (patchStatus store user id (some "checked-in") now nf).1[id]?
          = some { booking with status := "checked-in", cancelledAt := none }
        ∧ patchStatus store user id (some "checked-in") now false
          = (store.set id { booking with status := "checked-in", cancelledAt := none },
             .ok 200 { booking with status := "checked-in", cancelledAt := none })) := by
  have hall : "checked-in" ∈ allowedStatuses := by decide
  have hlt : id < store.length := (List.getElem?_eq_some.mp hb).1
  constructor
  · intro hid
    simp [patchStatus, hall, hb, hown, hid]
  · intro hid
    have hstore : (patchStatus store user id (some "checked-in") now nf).1
        = store.set id { booking with status := "checked-in", cancelledAt := none } := by
      cases nf <;> simp [patchStatus, hall, hb, hown, hid, statusNotifTitle]
    refine ⟨hstore, ?_, ?_⟩
    · rw [hstore, List.getElem?_set, if_pos rfl, if_pos hlt]
    · simp [patchStatus, hall, hb, hown, hid, statusNotifTitle]

/-- C9 on a confirmed booking whose ID verification is still pending: the request is
rejected and the store is unchanged. -/
theorem c9_user_check_in_gate_witness :
    patchStatus [sampleBooking "101" 10 30 "confirmed"] ⟨"u1", "user"⟩ 0
        (some "checked-in") 5 false
      = ([sampleBooking "101" 10 30 "confirmed"],
         .rejected 400 "ID verification is required before check-in") :=
  (c9_user_check_in_gate [sampleBooking "101" 10 30 "confirmed"] ⟨"u1", "user"⟩ 0
    (sampleBooking "101" 10 30 "confirmed") 5 false rfl rfl).1 (by decide)

/-! ## C10 -/

/-- C10 fails on the admin endpoint: user u1 creates a booking and uploads an ID proof
(which sets idVerified to pending); the admin status update to checked-in is then
answered 200 with a booking whose status is checked-in and whose idVerified is
pending, and that is what the store holds. -/
theorem c10_admin_check_in_without_approval :
    ((adminPatchStatus
        (serveAll []
          [ .postBooking ⟨"u1", "user"⟩ (sampleBody "101" 10 30) 1,
            .patchIdProof ⟨"u1", "user"⟩ 0 "passport" (some "id-1.png") 2 ])
        ⟨"a1", "admin"⟩ 0 (some "checked-in")).2.code = some 200)
    ∧ ((adminPatchStatus
        (serveAll []
          [ .postBooking ⟨"u1", "user"⟩ (sampleBody "101" 10 30) 1,
            .patchIdProof ⟨"u1", "user"⟩ 0 "passport" (some "id-1.png") 2 ])
        ⟨"a1", "admin"⟩ 0 (some "checked-in")).2.document.map
          (fun b => (b.status, b.idVerified)) = some ("checked-in", "pending"))
    ∧ ((serveAll []
          [ .postBooking ⟨"u1", "user"⟩ (sampleBody "101" 10 30) 1,
            .patchIdProof ⟨"u1", "user"⟩ 0 "passport" (some "id-1.png") 2,
            .adminPatchStatus ⟨"a1", "admin"⟩ 0 (some "checked-in") ])[0]?.map
          (fun b => (b.status, b.idVerified)) = some ("checked-in", "pending")) := by
  decide

/-! ## C11 -/

theorem adminPatchIdVerified_invalid (store : Store) (user : User) (id : Nat)
    (v : Option String) (hadmin : user.role = "admin")
    (hbad : ∀ s, v = some s → s ∉ allowedIdVerified) :
    adminPatchIdVerified store user id v
      = (store, .rejected 400 "Invalid ID verification status") := by
  cases v with
  | none => simp [adminPatchIdVerified, hadmin]
  | some s =>
    have h := hbad s rfl
    simp [adminPatchIdVerified, hadmin, h]

theorem adminPatchIdVerified_locked (store : Store) (user : User) (id : Nat)
    (booking : Booking) (s : String) (hadmin : user.role = "admin")
    (hb : store[id]? = some booking) (hall : s ∈ allowedIdVerified)
    (h1 : booking.idVerified = "approved") (h2 : s ≠ "approved") :
    adminPatchIdVerified store user id (some s)
      = (store, .rejected 400 "Approved ID verification cannot be changed") := by
  simp [adminPatchIdVerified, hadmin, hall, hb, h1, h2]

theorem adminPatchIdVerified_accepted (store : Store) (user : User) (id : Nat)
    (booking : Booking) (s : String) (hadmin : user.role = "admin")
    (hb : store[id]? = some booking) (hall : s ∈ allowedIdVerified)
    (hfree : ¬ (booking.idVerified = "approved" ∧ s ≠ "approved")) :
    adminPatchIdVerified store user id (some s)
      = (store.set id { booking with idVerified := s },
         .ok 200 { booking with idVerified := s }) := by
  have hfree2 : ¬ (booking.idVerified = "approved" ∧ ¬ s = "approved") := hfree
  simp [adminPatchIdVerified, hadmin, hall, hb, hfree2]

/-- C11: the admin ID-verification update on an existing booking, called by an admin.
It is answered 200 exactly when the requested value is one of pending, approved,
rejected and the stored value is not approved with a different value requested; it
then stores the requested value and changes no other field.  Otherwise it is answered
400 and the store is unchanged; for approved -> pending and approved -> rejected the
message is 'Approved ID verification cannot be changed'. -/
theorem c11_admin_id_verified_update (store : Store) (user : User) (id : Nat)
    (booking : Booking) (v : Option String)
    (hadmin : user.role = "admin") (hb : store[id]? = some booking) :
    ((adminPatchIdVerified store user id v).2.code = some 200 ↔
      ∃ s, v = some s ∧ s ∈ allowedIdVerified
        ∧ ¬ (booking.idVerified = "approved" ∧ s ≠ "approved"))
    ∧ (∀ s, v = some s → s ∈ allowedIdVerified →
        ¬ (booking.idVerified = "approved" ∧ s ≠ "approved") →
        adminPatchIdVerified store user id v
          = (store.set id { booking with idVerified := s },
             .ok 200 { booking with idVerified := s })
        ∧ (adminPatchIdVerified store user id v).1[id]?
          = some { booking with idVerified := s })
    ∧ (∀ s, v = some s → s ∈ allowedIdVerified →
        booking.idVerified = "approved" → s ≠ "approved" →
        adminPatchIdVerified store user id v
          = (store, .rejected 400 "Approved ID verification cannot be changed"))
    ∧ ((∀ s, v = some s → s ∉ allowedIdVerified) →
        adminPatchIdVerified store user id v
          = (store, .rejected 400 "Invalid ID verification status"))
    ∧ ((adminPatchIdVerified store user id v).2.code ≠ some 200 →
        (adminPatchIdVerified store user id v).1 = store
        ∧ (adminPatchIdVerified store user id v).2.code = some 400) := by
  have hlt : id < store.length := (List.getElem?_eq_some.mp hb).1
  have hacc : ∀ s, v = some s → s ∈ allowedIdVerified →
      ¬ (booking.idVerified = "approved" ∧ s ≠ "approved") →
      adminPatchIdVerified store user id v
        = (store.set id { booking with idVerified := s },
           .ok 200 { booking with idVerified := s }) := by
    intro s hv hall hfree
    subst hv
    exact adminPatchIdVerified_accepted store user id booking s hadmin hb hall hfree
  have hlock : ∀ s, v = some s → s ∈ allowedIdVerified →
      booking.idVerified = "approved" → s ≠ "approved" →
      adminPatchIdVerified store user id v
        = (store, .rejected 400 "Approved ID verification cannot be changed") := by
    intro s hv hall h1 h2
    subst hv
    exact adminPatchIdVerified_locked store user id booking s hadmin hb hall h1 h2
  have hinv := adminPatchIdVerified_invalid store user id v hadmin
  have hcases : (∃ s, v = some s ∧ s ∈ allowedIdVerified
        ∧ ¬ (booking.idVerified = "approved" ∧ s ≠ "approved"))
      ∨ (adminPatchIdVerified store user id v).1 = store
        ∧ (adminPatchIdVerified store user id v).2.code = some 400 := by
    by_cases hbad : ∀ s, v = some s → s ∉ allowedIdVerified
    · right; rw [hinv hbad]; exact ⟨rfl, rfl⟩
    · push_neg at hbad
      obtain ⟨s, hv, hall⟩ := hbad
      by_cases hl : booking.idVerified = "approved" ∧ s ≠ "approved"
      · right; rw [hlock s hv hall hl.1 hl.2]; exact ⟨rfl, rfl⟩
      · left; exact ⟨s, hv, hall, hl⟩
  refine ⟨?_, ?_, hlock, hinv, ?_⟩
  · constructor
    · intro hcode
      rcases hcases with h | ⟨_, h400⟩
      · exact h
      · rw [h400] at hcode; cases hcode
    · rintro ⟨s, hv, hall, hfree⟩
      rw [hacc s hv hall hfree]; rfl
  · intro s hv hall hfree
    refine ⟨hacc s hv hall hfree, ?_⟩
    rw [hacc s hv hall hfree]
    simp only []
    rw [List.getElem?_set, if_pos rfl, if_pos hlt]
  · intro hcode
    rcases hcases with ⟨s, hv, hall, hfree⟩ | h
    · exact absurd (by rw [hacc s hv hall hfree]; rfl) hcode
    · exact h

/-- C11 on the four transitions that succeed: pending -> approved, pending -> rejected,
rejected -> pending and rejected -> approved. -/
theorem c11_admin_id_verified_update_witness :
    (adminPatchIdVerified [sampleBooking "101" 10 30 "confirmed"] ⟨"a1", "admin"⟩ 0
        (some "approved")).2.code = some 200
    ∧ (adminPatchIdVerified [sampleBooking "101" 10 30 "confirmed"] ⟨"a1", "admin"⟩ 0
        (some "rejected")).2.code = some 200
    ∧ (adminPatchIdVerified
        [{ sampleBooking "101" 10 30 "confirmed" with idVerified := "rejected" }]
        ⟨"a1", "admin"⟩ 0 (some "pending")).2.code = some 200
    ∧ (adminPatchIdVerified
        [{ sampleBooking "101" 10 30 "confirmed" with idVerified := "rejected" }]
        ⟨"a1", "admin"⟩ 0 (some "approved")).2.code = some 200 :=
  ⟨(c11_admin_id_verified_update [sampleBooking "101" 10 30 "confirmed"] ⟨"a1", "admin"⟩ 0
      (sampleBooking "101" 10 30 "confirmed") (some "approved") rfl rfl).1.mpr
      ⟨"approved", rfl, by decide, by decide⟩,
   (c11_admin_id_verified_update [sampleBooking "101" 10 30 "confirmed"] ⟨"a1", "admin"⟩ 0
      (sampleBooking "101" 10 30 "confirmed") (some "rejected") rfl rfl).1.mpr
      ⟨"rejected", rfl, by decide, by decide⟩,
   (c11_admin_id_verified_update
      [{ sampleBooking "101" 10 30 "confirmed" with idVerified := "rejected" }]
      ⟨"a1", "admin"⟩ 0
      { sampleBooking "101" 10 30 "confirmed" with idVerified := "rejected" }
      (some "pending") rfl rfl).1.mpr ⟨"pending", rfl, by decide, by decide⟩,
   (c11_admin_id_verified_update
      [{ sampleBooking "101" 10 30 "confirmed" with idVerified := "rejected" }]
      ⟨"a1", "admin"⟩ 0
      { sampleBooking "101" 10 30 "confirmed" with idVerified := "rejected" }
      (some "approved") rfl rfl).1.mpr ⟨"approved", rfl, by decide, by decide⟩⟩

/-! ## Accepted status updates -/

theorem patchStatus_accepted (store : Store) (user : User) (id : Nat) (booking : Booking)
    (s : String) (now : Int) (nf : Bool)
    (hb : store[id]? = some booking) (hown : booking.userId = user.id)
    (hall : s ∈ allowedStatuses)
    (hgate : ¬ (s = "checked-in" ∧ booking.idVerified ≠ "approved")) :
    patchStatus store user id (some s) now nf
      = (store.set id { booking with
            status := s
            cancelledAt := if s = "cancelled" then some now else none },
         if statusNotifTitle s ≠ "" ∧ nf = true then .failed
         else .ok 200 { booking with
            status := s
            cancelledAt := if s = "cancelled" then some now else none }) := by
  have hgate2 : ¬ (s = "checked-in" ∧ ¬ booking.idVerified = "approved") := hgate
  by_cases hn : ¬ statusNotifTitle s = "" ∧ nf = true
  · simp [patchStatus, hall, hb, hown, hgate2, hn]
  · simp [patchStatus, hall, hb, hown, hgate2, hn]

theorem adminPatchStatus_accepted (store : Store) (user : User) (id : Nat)
    (booking : Booking) (s : String)
    (hadmin : user.role = "admin") (hb : store[id]? = some booking)
    (hall : s ∈ allowedStatuses) :
    adminPatchStatus store user id (some s)
      = (store.set id { booking with status := s }, .ok 200 { booking with status := s }) := by
  simp [adminPatchStatus, hadmin, hall, hb]

theorem getElem?_set_self_of_some (store : Store) (id : Nat) (old new : Booking)
    (hb : store[id]? = some old) : (store.set id new)[id]? = some new := by
  have hlt : id < store.length := (List.getElem?_eq_some.mp hb).1
  rw [List.getElem?_set, if_pos rfl, if_pos hlt]

theorem patchIdProof_accepted (store : Store) (user : User) (id : Nat) (booking : Booking)
    (idType filename : String) (now : Int)
    (hb : store[id]? = some booking) (hown : booking.userId = user.id)
    (ht : idType ≠ "") :
    patchIdProof store user id idType (some filename) now
      = (store.set id { booking with
            idProofUrl := some ("/uploads/ids/" ++ filename)
            idProofType := some idType
            idProofUploadedAt := some now
            idVerified := "pending" },
         .ok 200 { booking with
            idProofUrl := some ("/uploads/ids/" ++ filename)
            idProofType := some idType
            idProofUploadedAt := some now
            idVerified := "pending" }) := by
  simp [patchIdProof, ht, hb, hown]

/-! ## C12 -/

theorem approved_after_set (store : Store) (id i : Nat) (old new b : Booking)
    (hold : store[id]? = some old) (hb : store[i]? = some b)
    (happ : b.idVerified = "approved")
    (hkeep : old.idVerified = "approved" → new.idVerified = "approved") :
    ∃ b', (store.set id new)[i]? = some b' ∧ b'.idVerified = "approved" := by
  by_cases h : id = i
  · subst h
    rw [hold] at hb
    cases hb
    exact ⟨new, getElem?_set_self_of_some store id old new hold, hkeep happ⟩
  · exact ⟨b, by rw [List.getElem?_set_ne h]; exact hb, happ⟩

/-- C12, as stated, fails on the ID-proof upload: user u1 creates a booking and uploads
a proof, the admin approves it, and a second upload by u1 puts idVerified back to
pending. -/
theorem c12_upload_resets_approved :
    (serveAll []
        [ .postBooking ⟨"u1", "user"⟩ (sampleBody "101" 10 30) 1,
          .patchIdProof ⟨"u1", "user"⟩ 0 "passport" (some "id-1.png") 2,
          .adminPatchIdVerified ⟨"a1", "admin"⟩ 0 (some "approved") ])[0]?.map
        (fun b => b.idVerified) = some "approved"
    ∧ (serveAll []
        [ .postBooking ⟨"u1", "user"⟩ (sampleBody "101" 10 30) 1,
          .patchIdProof ⟨"u1", "user"⟩ 0 "passport" (some "id-1.png") 2,
          .adminPatchIdVerified ⟨"a1", "admin"⟩ 0 (some "approved"),
          .patchIdProof ⟨"u1", "user"⟩ 0 "passport" (some "id-2.png") 3 ])[0]?.map
        (fun b => b.idVerified) = some "pending" := by
  decide

/-- C12, amended: a booking whose idVerified is approved keeps it through every request
that is not an ID-proof upload (creation, user and admin status updates, payment-status
update, admin ID-verification update); an ID-proof upload that is accepted for that
booking sets its idVerified to pending. -/
theorem c12_approved_kept_except_upload (store : Store) (r : Request) (i : Nat)
    (b : Booking) (hb : store[i]? = some b) (happ : b.idVerified = "approved") :
    (r.isIdProofUpload = false →
      ∃ b', (serve store r)[i]? = some b' ∧ b'.idVerified = "approved")
    ∧ (∀ (user : User) (idType filename : String) (now : Int),
        idType ≠ "" → b.userId = user.id →
        ∃ saved, patchIdProof store user i idType (some filename) now
            = (store.set i saved, .ok 200 saved)
          ∧ (store.set i saved)[i]? = some saved
          ∧ saved.idVerified = "pending") := by
  constructor
  · intro hup
    cases r with
    | postBooking user body now =>
      rcases postBooking_store store user body now with hsame | ⟨_, _, a, c, _, _, _, _, _, heq⟩
      · exact ⟨b, by simp only [serve]; rw [hsame]; exact hb, happ⟩
      · refine ⟨b, ?_, happ⟩
        simp only [serve]
        rw [heq]
        have hlt : i < store.length := (List.getElem?_eq_some.mp hb).1
        simp only []
        rw [List.getElem?_append_left hlt]
        exact hb
    | patchStatus user id status now nf =>
      rcases patchStatus_store store user id status now nf
        with hsame | ⟨s, booking, _, _, hold, _, _, heq⟩
      · exact ⟨b, by simp only [serve]; rw [hsame]; exact hb, happ⟩
      · simp only [serve]; rw [heq]
        exact approved_after_set store id i booking _ b hold hb happ (fun h => h)
    | patchIdProof user id idType file now => simp [Request.isIdProofUpload] at hup
    | patchPaymentStatus user id ps nf =>
      rcases patchPaymentStatus_store store user id ps nf
        with hsame | ⟨p, booking, _, _, hold, _, heq⟩
      · exact ⟨b, by simp only [serve]; rw [hsame]; exact hb, happ⟩
      · simp only [serve]; rw [heq]
        exact approved_after_set store id i booking _ b hold hb happ (fun h => h)
    | adminPatchStatus user id status =>
      rcases adminPatchStatus_store store user id status
        with hsame | ⟨s, booking, _, _, _, hold, heq⟩
      · exact ⟨b, by simp only [serve]; rw [hsame]; exact hb, happ⟩
      · simp only [serve]; rw [heq]
        exact approved_after_set store id i booking _ b hold hb happ (fun h => h)
    | adminPatchIdVerified user id v =>
      rcases adminPatchIdVerified_store store user id v
        with hsame | ⟨w, booking, _, _, _, hold, hlock, heq⟩
      · exact ⟨b, by simp only [serve]; rw [hsame]; exact hb, happ⟩
      · simp only [serve]; rw [heq]
        refine approved_after_set store id i booking _ b hold hb happ ?_
        intro h
        by_contra hne
        exact hlock ⟨h, hne⟩
  · intro user idType filename now ht hown
    refine ⟨_, patchIdProof_accepted store user i b idType filename now hb hown ht,
      getElem?_set_self_of_some store i b _ hb, rfl⟩

/-- C12, amended, on an approved booking that the admin then checks in. -/
theorem c12_approved_kept_except_upload_witness :
    ∃ b', (serve [{ sampleBooking "101" 10 30 "confirmed" with idVerified := "approved" }]
        (.adminPatchStatus ⟨"a1", "admin"⟩ 0 (some "checked-in")))[0]? = some b'
      ∧ b'.idVerified = "approved" :=
  (c12_approved_kept_except_upload
    [{ sampleBooking "101" 10 30 "confirmed" with idVerified := "approved" }]
    (.adminPatchStatus ⟨"a1", "admin"⟩ 0 (some "checked-in")) 0
    { sampleBooking "101" 10 30 "confirmed" with idVerified := "approved" } rfl rfl).1 rfl

/-! ## C13 -/

/-- C13, as stated, fails on both endpoints: a booking cancelled by its owner is set
back to confirmed by the owner, and a booking the admin checked out is set to pending
by the admin. -/
theorem c13_terminal_states_refuted :
    (serveAll []
        [ .postBooking ⟨"u1", "user"⟩ (sampleBody "101" 10 30) 1,
          .patchStatus ⟨"u1", "user"⟩ 0 (some "cancelled") 2 false ])[0]?.map
        (fun b => b.status) = some "cancelled"
    ∧ (serveAll []
        [ .postBooking ⟨"u1", "user"⟩ (sampleBody "101" 10 30) 1,
          .patchStatus ⟨"u1", "user"⟩ 0 (some "cancelled") 2 false,
          .patchStatus ⟨"u1", "user"⟩ 0 (some "confirmed") 3 false ])[0]?.map
        (fun b => b.status) = some "confirmed"
    ∧ (serveAll []
        [ .postBooking ⟨"u1", "user"⟩ (sampleBody "101" 10 30) 1,
          .adminPatchStatus ⟨"a1", "admin"⟩ 0 (some "checked-out") ])[0]?.map
        (fun b => b.status) = some "checked-out"
    ∧ (serveAll []
        [ .postBooking ⟨"u1", "user"⟩ (sampleBody "101" 10 30) 1,
          .adminPatchStatus ⟨"a1", "admin"⟩ 0 (some "checked-out"),
          .adminPatchStatus ⟨"a1", "admin"⟩ 0 (some "pending") ])[0]?.map
        (fun b => b.status) = some "pending" := by
  decide

/-- C13, amended: cancelled and checked-out are not terminal.  For a booking whose status
is cancelled or checked-out and a requested status s among the five allowed ones, the
user endpoint called by the owner sets the status to s (unless s is checked-in and
idVerified is not approved) and the admin endpoint called by an admin sets the status
to s; a request from anyone else leaves the store as it is. -/
theorem c13_status_update_from_closed_booking (store : Store) (user : User) (id : Nat)
    (booking : Booking) (s : String) (now : Int) (nf : Bool)
    (hb : store[id]? = some booking)
    (_hclosed : booking.status = "cancelled" ∨ booking.status = "checked-out")
    (hall : s ∈ allowedStatuses) :
    (booking.userId = user.id →
      ¬ (s = "checked-in" ∧ booking.idVerified ≠ "approved") →
      ∃ saved, (patchStatus store user id (some s) now nf).1[id]? = some saved
        ∧ saved.status = s)
    ∧ (booking.userId ≠ user.id →
        patchStatus store user id (some s) now nf = (store, .rejected 403 "Access denied"))
    ∧ (user.role = "admin" →
        ∃ updated, adminPatchStatus store user id (some s)
            = (store.set id updated, .ok 200 updated)
          ∧ (store.set id updated)[id]? = some updated ∧ updated.status = s)
    ∧ (user.role ≠ "admin" →
        adminPatchStatus store user id (some s)
          = (store, .rejected 403 "Admin access required")) := by
  refine ⟨?_, ?_, ?_, ?_⟩
  · intro hown hgate
    rw [patchStatus_accepted store user id booking s now nf hb hown hall hgate]
    exact ⟨_, getElem?_set_self_of_some store id booking _ hb, rfl⟩
  · intro hown
    simp [patchStatus, hall, hb, hown]
  · intro hadmin
    exact ⟨_, adminPatchStatus_accepted store user id booking s hadmin hb hall,
      getElem?_set_self_of_some store id booking _ hb, rfl⟩
  · intro hrole
    simp [adminPatchStatus, hrole]

/-- C13, amended, on a cancelled booking that its owner sets to confirmed. -/
theorem c13_status_update_from_closed_booking_witness :
    ∃ saved, (patchStatus [sampleBooking "101" 10 30 "cancelled"] ⟨"u1", "user"⟩ 0
        (some "confirmed") 7 false).1[0]? = some saved
      ∧ saved.status = "confirmed" :=
  (c13_status_update_from_closed_booking [sampleBooking "101" 10 30 "cancelled"]
    ⟨"u1", "user"⟩ 0 (sampleBooking "101" 10 30 "cancelled") "confirmed" 7 false rfl
    (Or.inl rfl) (by decide)).1 rfl (by decide)

/-! ## C14 -/

/-- C14 fails on the admin endpoint, which writes the status alone.  After a creation
and an admin update to cancelled the booking has status cancelled and no cancelledAt;
after a creation, a cancellation by the owner at time 5 and an admin update to
confirmed the booking has status confirmed and cancelledAt 5. -/
theorem c14_admin_status_leaves_cancelledAt :
    (serveAll []
        [ .postBooking ⟨"u1", "user"⟩ (sampleBody "101" 10 30) 1,
          .adminPatchStatus ⟨"a1", "admin"⟩ 0 (some "cancelled") ])[0]?.map
        (fun b => (b.status, b.cancelledAt)) = some ("cancelled", none)
    ∧ (serveAll []
        [ .postBooking ⟨"u1", "user"⟩ (sampleBody "101" 10 30) 1,
          .patchStatus ⟨"u1", "user"⟩ 0 (some "cancelled") 5 false,
          .adminPatchStatus ⟨"a1", "admin"⟩ 0 (some "confirmed") ])[0]?.map
        (fun b => (b.status, b.cancelledAt)) = some ("confirmed", some 5) := by
  decide

/-! ## C15 -/

/-- C15: a user status update that is accepted (the caller owns the booking, the status
is one of the five allowed ones, and check-in has an approved ID) saves the booking
with the requested status; its cancelledAt is the time of the request when the status
is cancelled and is absent for pending, confirmed, checked-in and checked-out, whatever
it was before.  The answer is 200 with the saved booking when Notification.create does
not throw. -/
theorem c15_user_status_sets_cancelledAt (store : Store) (user : User) (id : Nat)
    (booking : Booking) (s : String) (now : Int) (nf : Bool)
    (hb : store[id]? = some booking) (hown : booking.userId = user.id)
    (hall : s ∈ allowedStatuses)
    (hgate : ¬ (s = "checked-in" ∧ booking.idVerified ≠ "approved")) :
    ∃ saved, (patchStatus store user id (some s) now nf).1[id]? = some saved
      ∧ patchStatus store user id (some s) now false
          = ((patchStatus store user id (some s) now nf).1, .ok 200 saved)
      ∧ saved.status = s
      ∧ (s = "cancelled" → saved.cancelledAt = some now)
      ∧ (s ≠ "cancelled" → saved.cancelledAt = none) := by
  rw [patchStatus_accepted store user id booking s now nf hb hown hall hgate,
    patchStatus_accepted store user id booking s now false hb hown hall hgate]
  refine ⟨_, getElem?_set_self_of_some store id booking _ hb, ?_, rfl, ?_, ?_⟩
  · simp
  · intro hs; simp [hs]
  · intro hs; simp [hs]

/-- C15 on a booking that carries a cancelledAt and is set to confirmed by its owner:
the saved booking has none. -/
theorem c15_user_status_sets_cancelledAt_witness :
    ∃ saved, (patchStatus
        [{ sampleBooking "101" 10 30 "cancelled" with cancelledAt := some 3 }]
        ⟨"u1", "user"⟩ 0 (some "confirmed") 9 false).1[0]? = some saved
      ∧ patchStatus
          [{ sampleBooking "101" 10 30 "cancelled" with cancelledAt := some 3 }]
          ⟨"u1", "user"⟩ 0 (some "confirmed") 9 false
        = ((patchStatus
            [{ sampleBooking "101" 10 30 "cancelled" with cancelledAt := some 3 }]
            ⟨"u1", "user"⟩ 0 (some "confirmed") 9 false).1, .ok 200 saved)
      ∧ saved.status = "confirmed"
      ∧ ("confirmed" = "cancelled" → saved.cancelledAt = some 9)
      ∧ ("confirmed" ≠ "cancelled" → saved.cancelledAt = none) :=
  c15_user_status_sets_cancelledAt
    [{ sampleBooking "101" 10 30 "cancelled" with cancelledAt := some 3 }]
    ⟨"u1", "user"⟩ 0 { sampleBooking "101" 10 30 "cancelled" with cancelledAt := some 3 }
    "confirmed" 9 false rfl rfl (by decide) (by decide)

/-! ## C16 -/

/-- C16: a status update whose status is missing or is not one of pending, confirmed,
checked-in, checked-out, cancelled is answered 400 'Invalid status' with the store
unchanged, by the user endpoint for every caller and by the admin endpoint for every
admin, whatever the id: the test comes before the lookup. -/
theorem c16_invalid_status_rejected (store : Store) (user : User) (id : Nat)
    (status : Option String) (now : Int) (nf : Bool)
    (hbad : ∀ s, status = some s → s ∉ allowedStatuses) :
    patchStatus store user id status now nf = (store, .rejected 400 "Invalid status")
    ∧ (user.role = "admin" →
        adminPatchStatus store user id status = (store, .rejected 400 "Invalid status")) := by
  cases status with
  | none =>
    refine ⟨rfl, ?_⟩
    intro hadmin
    simp [adminPatchStatus, hadmin]
  | some s =>
    have h := hbad s rfl
    refine ⟨by simp [patchStatus, h], ?_⟩
    intro hadmin
    simp [adminPatchStatus, hadmin, h]

/-- C16 on the status 'archived', asked by an admin for an id that does not exist. -/
theorem c16_invalid_status_rejected_witness :
    patchStatus [sampleBooking "101" 10 30 "confirmed"] ⟨"a1", "admin"⟩ 4
        (some "archived") 1 false
      = ([sampleBooking "101" 10 30 "confirmed"], .rejected 400 "Invalid status")
    ∧ adminPatchStatus [sampleBooking "101" 10 30 "confirmed"] ⟨"a1", "admin"⟩ 4
        (some "archived")
      = ([sampleBooking "101" 10 30 "confirmed"], .rejected 400 "Invalid status") :=
  ⟨(c16_invalid_status_rejected [sampleBooking "101" 10 30 "confirmed"] ⟨"a1", "admin"⟩ 4
      (some "archived") 1 false (by intro s hs; cases hs; decide)).1,
   (c16_invalid_status_rejected [sampleBooking "101" 10 30 "confirmed"] ⟨"a1", "admin"⟩ 4
      (some "archived") 1 false (by intro s hs; cases hs; decide)).2 rfl⟩

/-! ## Creation: validation and outcome -/

theorem findNext_valid (store : Store) (roomId : String) (ci co : Int) :
    ∃ a b, findNextAvailableRoomDates store roomId (some ci) (some co) = (some a, some b)
      ∧ b - a = co - ci := by
  by_cases hD : co - ci ≤ 0
  · exact ⟨ci, co, by simp [findNextAvailableRoomDates, hD], rfl⟩
  · refine ⟨_, _, findNext_of_pos store roomId ci co (by omega), ?_⟩
    have h := searchLoop_duration store roomId (co - ci) 50 ci co (by omega)
    omega

theorem postBooking_invalid_date (store : Store) (user : User) (body : CreateBody)
    (now : Int) (hrole : user.role ≠ "admin")
    (hdate : body.checkIn.date = none ∨ body.checkOut.date = none) :
    postBooking store user body now = (store, .failed) := by
  rcases hdate with h | h
  · simp [postBooking, hrole, h]
  · cases hci : body.checkIn.date with
    | none => simp [postBooking, hrole, hci]
    | some ci => simp [postBooking, hrole, hci, h]

theorem postBooking_missingRequired (store : Store) (user : User) (body : CreateBody)
    (now : Int) (ci co : Int) (hrole : user.role ≠ "admin")
    (hci : body.checkIn.date = some ci) (hco : body.checkOut.date = some co)
    (hreq : missingRequired body = true) :
    postBooking store user body now
      = (store, .rejected 400 "Missing required booking fields") := by
  simp [postBooking, hrole, hci, hco, hreq]

theorem postBooking_created (store : Store) (user : User) (body : CreateBody)
    (now : Int) (ci co : Int) (hrole : user.role ≠ "admin")
    (hci : body.checkIn.date = some ci) (hco : body.checkOut.date = some co)
    (hreq : missingRequired body = false) :
    ∃ a b, postBooking store user body now
        = (store ++ [newBookingDocument user body a b now],
           .ok 201 (newBookingDocument user body a b now))
      ∧ b - a = co - ci
      ∧ (isFree store body.roomId ci co → a = ci ∧ b = co)
      ∧ (¬ isFree store body.roomId ci co →
          findNextAvailableRoomDates store body.roomId (some ci) (some co)
            = (some a, some b)) := by
  cases hf : store.find? (overlapFilter body.roomId ci co) with
  | none =>
    have hfree := (find?_overlap_eq_none_iff store body.roomId ci co).mp hf
    refine ⟨ci, co, ?_, rfl, fun _ => ⟨rfl, rfl⟩, fun h => absurd hfree h⟩
    simp [postBooking, hrole, hci, hco, hreq, hf]
  | some e =>
    have hnf : ¬ isFree store body.roomId ci co := by
      rw [← find?_overlap_eq_none_iff, hf]; simp
    obtain ⟨a, b, hres, hdur⟩ := findNext_valid store body.roomId ci co
    refine ⟨a, b, ?_, hdur, fun h => absurd h hnf, fun _ => hres⟩
    simp [postBooking, hrole, hci, hco, hreq, hf, hres]

/-! ## C17 -/

/-- C17 fails when checkIn is absent: the body lacks a required field, yet the answer
is not 400 'Missing required booking fields' but the error path, because
`new Date(undefined)` is an Invalid Date and the overlap query of lines 141-147 runs,
and is refused, before the validation of lines 164-177.  With checkIn null, which is
falsy too but parses to the epoch, the same body is answered 400. -/
theorem c17_absent_checkIn_skips_validation :
    missingRequired { sampleBody "101" 10 30 with checkIn := ⟨false, none⟩ } = true
    ∧ postBooking [] ⟨"u1", "user"⟩
        { sampleBody "101" 10 30 with checkIn := ⟨false, none⟩ } 1
      = ([], .failed)
    ∧ postBooking [] ⟨"u1", "user"⟩
        { sampleBody "101" 10 30 with checkIn := ⟨false, some 0⟩ } 1
      = ([], .rejected 400 "Missing required booking fields") := by
  decide

/-! ## C18 -/

/-- C18: a creation request from a caller whose role is admin is answered 403 'Admins
cannot create bookings' for every body, and the store is unchanged. -/
theorem c18_admin_cannot_create (store : Store) (user : User) (body : CreateBody)
    (now : Int) (hadmin : user.role = "admin") :
    postBooking store user body now
      = (store, .rejected 403 "Admins cannot create bookings") := by
  simp [postBooking, hadmin]

/-- C18 on a complete body sent by an admin. -/
theorem c18_admin_cannot_create_witness :
    postBooking [] ⟨"a1", "admin"⟩ (sampleBody "101" 10 30) 1
      = ([], .rejected 403 "Admins cannot create bookings") :=
  c18_admin_cannot_create [] ⟨"a1", "admin"⟩ (sampleBody "101" 10 30) 1 rfl

/-! ## C20 -/

/-- C20, as stated, fails: a complete request with checkIn 30 and checkOut 10 is
accepted with 201 and the booking is stored with checkOut before checkIn. -/
theorem c20_inverted_dates_stored :
    postBooking [] ⟨"u1", "user"⟩ (sampleBody "101" 30 10) 1
      = ([newBookingDocument ⟨"u1", "user"⟩ (sampleBody "101" 30 10) 30 10 1],
         .ok 201 (newBookingDocument ⟨"u1", "user"⟩ (sampleBody "101" 30 10) 30 10 1))
    ∧ ¬ (newBookingDocument ⟨"u1", "user"⟩ (sampleBody "101" 30 10) 30 10 1).checkOut
        > (newBookingDocument ⟨"u1", "user"⟩ (sampleBody "101" 30 10) 30 10 1).checkIn := by
  decide

/-- C20, amended: a creation request either leaves the store as it is or appends one
booking whose checkOut - checkIn equals the requested checkOut - checkIn, so the
stored booking has checkOut > checkIn exactly when the request has; a request whose
checkIn or checkOut does not parse leaves the store as it is. -/
theorem c20_stored_duration_is_requested (store : Store) (user : User) (body : CreateBody)
    (now : Int) :
    ((postBooking store user body now).1 = store
      ∨ ∃ ci co booking, body.checkIn.date = some ci ∧ body.checkOut.date = some co
          ∧ postBooking store user body now = (store ++ [booking], .ok 201 booking)
          ∧ booking.checkOut - booking.checkIn = co - ci
          ∧ (booking.checkOut > booking.checkIn ↔ co > ci))
    ∧ ((body.checkIn.date = none ∨ body.checkOut.date = none) →
        (postBooking store user body now).1 = store) := by
  constructor
  · by_cases hrole : user.role = "admin"
    · left; simp [postBooking, hrole]
    · cases hci : body.checkIn.date with
      | none => left; rw [postBooking_invalid_date store user body now hrole (Or.inl hci)]
      | some ci =>
        cases hco : body.checkOut.date with
        | none => left; rw [postBooking_invalid_date store user body now hrole (Or.inr hco)]
        | some co =>
          cases hreq : missingRequired body with
          | true =>
            left; rw [postBooking_missingRequired store user body now ci co hrole hci hco hreq]
          | false =>
            right
            obtain ⟨a, b, heq, hdur, _, _⟩ :=
              postBooking_created store user body now ci co hrole hci hco hreq
            refine ⟨ci, co, _, rfl, rfl, heq, hdur, ?_⟩
            have h1 : (newBookingDocument user body a b now).checkOut = b := rfl
            have h2 : (newBookingDocument user body a b now).checkIn = a := rfl
            rw [h1, h2]
            constructor <;> intro h <;> omega
  · intro hdate
    by_cases hrole : user.role = "admin"
    · simp [postBooking, hrole]
    · rw [postBooking_invalid_date store user body now hrole hdate]

/-! ## C21 -/

/-- C21: on an existing booking, a caller whose id is not the booking's userId is
answered 403 'Access denied' by the read, by the status, payment-status and ID-proof
updates and by the Razorpay order and verify operations, when the request is
otherwise valid; the store is unchanged and no gateway order is asked for. -/
theorem c21_non_owner_denied (env : RazorpayEnv) (store : Store) (user : User) (id : Nat)
    (booking : Booking) (s ps idType filename oid pid sig : String) (now : Int) (nf : Bool)
    (hb : store[id]? = some booking) (hother : booking.userId ≠ user.id)
    (hs : s ∈ allowedStatuses) (hps : ps ∈ allowedPaymentStatuses) (hid : idType ≠ "")
    (ho : oid ≠ "") (hp : pid ≠ "") (hsig : sig ≠ "") :
    getBooking store user id = .rejected 403 "Access denied"
    ∧ patchStatus store user id (some s) now nf = (store, .rejected 403 "Access denied")
    ∧ patchPaymentStatus store user id (some ps) nf
        = (store, .rejected 403 "Access denied")
    ∧ patchIdProof store user id idType (some filename) now
        = (store, .rejected 403 "Access denied")
    ∧ razorpayOrder env store user (some id) = (.rejected 403 "Access denied", [])
    ∧ razorpayVerify env store user (some id) oid pid sig
        = (store, .rejected 403 "Access denied") := by
  refine ⟨?_, ?_, ?_, ?_, ?_, ?_⟩
  · simp [getBooking, hb, hother]
  · simp [patchStatus, hs, hb, hother]
  · simp [patchPaymentStatus, hps, hb, hother]
  · simp [patchIdProof, hid, hb, hother]
  · simp [razorpayOrder, hb, hother]
  · simp [razorpayVerify, ho, hp, hsig, hb, hother]

/-- C21 on the booking of user u1, addressed by user u2. -/
theorem c21_non_owner_denied_witness :
    getBooking [sampleBooking "101" 10 30 "confirmed"] ⟨"u2", "user"⟩ 0
      = .rejected 403 "Access denied"
    ∧ patchStatus [sampleBooking "101" 10 30 "confirmed"] ⟨"u2", "user"⟩ 0
        (some "cancelled") 5 false
      = ([sampleBooking "101" 10 30 "confirmed"], .rejected 403 "Access denied")
    ∧ patchPaymentStatus [sampleBooking "101" 10 30 "confirmed"] ⟨"u2", "user"⟩ 0
        (some "paid") false
      = ([sampleBooking "101" 10 30 "confirmed"], .rejected 403 "Access denied")
    ∧ patchIdProof [sampleBooking "101" 10 30 "confirmed"] ⟨"u2", "user"⟩ 0 "passport"
        (some "id-9.png") 5
      = ([sampleBooking "101" 10 30 "confirmed"], .rejected 403 "Access denied")
    ∧ razorpayOrder sampleEnv [sampleBooking "101" 10 30 "confirmed"] ⟨"u2", "user"⟩
        (some 0)
      = (.rejected 403 "Access denied", [])
    ∧ razorpayVerify sampleEnv [sampleBooking "101" 10 30 "confirmed"] ⟨"u2", "user"⟩
        (some 0) "o1" "p1" "o1|p1"
      = ([sampleBooking "101" 10 30 "confirmed"], .rejected 403 "Access denied") :=
  c21_non_owner_denied sampleEnv [sampleBooking "101" 10 30 "confirmed"] ⟨"u2", "user"⟩ 0
    (sampleBooking "101" 10 30 "confirmed") "cancelled" "paid" "passport" "id-9.png"
    "o1" "p1" "o1|p1" 5 false rfl (by decide) (by decide) (by decide) (by decide)
    (by decide) (by decide) (by decide)

/-! ## C22 -/

theorem patchPaymentStatus_accepted (store : Store) (user : User) (id : Nat)
    (booking : Booking) (ps : String) (nf : Bool)
    (hb : store[id]? = some booking) (hown : booking.userId = user.id)
    (hall : ps ∈ allowedPaymentStatuses) :
    patchPaymentStatus store user id (some ps) nf
      = (store.set id { booking with paymentStatus := ps },
         if paymentNotifTitle ps ≠ "" ∧ nf = true then .failed
         else .ok 200 { booking with paymentStatus := ps }) := by
  by_cases hn : ¬ paymentNotifTitle ps = "" ∧ nf = true
  · simp [patchPaymentStatus, hall, hb, hown, hn]
  · simp [patchPaymentStatus, hall, hb, hown, hn]

/-- C22: the payment-status update called by the booking's owner.  For a value among
pending, paid, failed the booking is saved with that paymentStatus and every other
field as it was, whatever its status, and the answer is 200 with the saved booking
when Notification.create does not throw.  For any other value (or none) the answer is
400 'Invalid payment status' and the store is unchanged. -/
theorem c22_payment_status_frame (store : Store) (user : User) (id : Nat)
    (booking : Booking) (paymentStatus : Option String) (nf : Bool)
    (hb : store[id]? = some booking) (hown : booking.userId = user.id) :
    (∀ ps, paymentStatus = some ps → ps ∈ allowedPaymentStatuses →
      (patchPaymentStatus store user id paymentStatus nf).1
        = store.set id { booking with paymentStatus := ps }
      ∧ (patchPaymentStatus store user id paymentStatus nf).1[id]?
        = some { booking with paymentStatus := ps }
      ∧ patchPaymentStatus store user id paymentStatus false
        = (store.set id { booking with paymentStatus := ps },
           .ok 200 { booking with paymentStatus := ps }))
    ∧ ((∀ ps, paymentStatus = some ps → ps ∉ allowedPaymentStatuses) →
        patchPaymentStatus store user id paymentStatus nf
          = (store, .rejected 400 "Invalid payment status")) := by
  constructor
  · intro ps hps hall
    subst hps
    rw [patchPaymentStatus_accepted store user id booking ps nf hb hown hall,
      patchPaymentStatus_accepted store user id booking ps false hb hown hall]
    refine ⟨rfl, getElem?_set_self_of_some store id booking _ hb, ?_⟩
    simp
  · intro hbad
    cases paymentStatus with
    | none => rfl
    | some ps =>
      have h := hbad ps rfl
      simp [patchPaymentStatus, h]

/-- C22 on a cancelled booking whose owner sets paymentStatus to paid. -/
theorem c22_payment_status_frame_witness :
    (patchPaymentStatus [sampleBooking "101" 10 30 "cancelled"] ⟨"u1", "user"⟩ 0
        (some "paid") true).1
      = [sampleBooking "101" 10 30 "cancelled"].set 0
          { sampleBooking "101" 10 30 "cancelled" with paymentStatus := "paid" }
    ∧ (patchPaymentStatus [sampleBooking "101" 10 30 "cancelled"] ⟨"u1", "user"⟩ 0
        (some "paid") true).1[0]?
      = some { sampleBooking "101" 10 30 "cancelled" with paymentStatus := "paid" }
    ∧ patchPaymentStatus [sampleBooking "101" 10 30 "cancelled"] ⟨"u1", "user"⟩ 0
        (some "paid") false
      = ([sampleBooking "101" 10 30 "cancelled"].set 0
            { sampleBooking "101" 10 30 "cancelled" with paymentStatus := "paid" },
         .ok 200 { sampleBooking "101" 10 30 "cancelled" with paymentStatus := "paid" }) :=
  (c22_payment_status_frame [sampleBooking "101" 10 30 "cancelled"] ⟨"u1", "user"⟩ 0
    (sampleBooking "101" 10 30 "cancelled") (some "paid") true rfl rfl).1 "paid" rfl
    (by decide)

/-! ## C23 -/

/-- C23: for a booking whose status is cancelled, called by its owner.  Order creation
is answered 400 'Cancelled bookings cannot be paid' and asks the gateway for no order.
Verification never changes the store, whatever the signature; it is answered 400
'Cancelled bookings cannot be paid' when the order id, payment id and signature are
present, and 400 'Missing Razorpay verification fields' when one of them is not. -/
theorem c23_cancelled_not_payable (env : RazorpayEnv) (store : Store) (user : User)
    (id : Nat) (booking : Booking) (oid pid sig : String)
    (hb : store[id]? = some booking) (hown : booking.userId = user.id)
    (hc : booking.status = "cancelled") :
    razorpayOrder env store user (some id)
      = (.rejected 400 "Cancelled bookings cannot be paid", [])
    ∧ (razorpayVerify env store user (some id) oid pid sig).1 = store
    ∧ (oid ≠ "" → pid ≠ "" → sig ≠ "" →
        razorpayVerify env store user (some id) oid pid sig
          = (store, .rejected 400 "Cancelled bookings cannot be paid"))
    ∧ ((oid = "" ∨ pid = "" ∨ sig = "") →
        razorpayVerify env store user (some id) oid pid sig
          = (store, .rejected 400 "Missing Razorpay verification fields")) := by
  have hfull : oid ≠ "" → pid ≠ "" → sig ≠ "" →
      razorpayVerify env store user (some id) oid pid sig
        = (store, .rejected 400 "Cancelled bookings cannot be paid") := by
    intro ho hp hs
    simp [razorpayVerify, ho, hp, hs, hb, hown, hc]
  have hmiss : (oid = "" ∨ pid = "" ∨ sig = "") →
      razorpayVerify env store user (some id) oid pid sig
        = (store, .rejected 400 "Missing Razorpay verification fields") := by
    intro h
    simp [razorpayVerify, h]
  refine ⟨by simp [razorpayOrder, hb, hown, hc], ?_, hfull, hmiss⟩
  by_cases h : oid = "" ∨ pid = "" ∨ sig = ""
  · rw [hmiss h]
  · push_neg at h
    rw [hfull h.1 h.2.1 h.2.2]

/-- C23 on a cancelled booking whose owner sends a verification with the right
signature. -/
theorem c23_cancelled_not_payable_witness :
    razorpayOrder sampleEnv [sampleBooking "101" 10 30 "cancelled"] ⟨"u1", "user"⟩ (some 0)
      = (.rejected 400 "Cancelled bookings cannot be paid", [])
    ∧ razorpayVerify sampleEnv [sampleBooking "101" 10 30 "cancelled"] ⟨"u1", "user"⟩
        (some 0) "o1" "p1" "o1|p1"
      = ([sampleBooking "101" 10 30 "cancelled"],
         .rejected 400 "Cancelled bookings cannot be paid") :=
  ⟨(c23_cancelled_not_payable sampleEnv [sampleBooking "101" 10 30 "cancelled"]
      ⟨"u1", "user"⟩ 0 (sampleBooking "101" 10 30 "cancelled") "o1" "p1" "o1|p1"
      rfl rfl rfl).1,
   (c23_cancelled_not_payable sampleEnv [sampleBooking "101" 10 30 "cancelled"]
      ⟨"u1", "user"⟩ 0 (sampleBooking "101" 10 30 "cancelled") "o1" "p1" "o1|p1"
      rfl rfl rfl).2.2.1 (by decide) (by decide) (by decide)⟩

/-! ## C24 -/

theorem statusNotifTitle_ne_empty_iff (s : String) :
    statusNotifTitle s ≠ "" ↔ s = "cancelled" ∨ s = "checked-in" ∨ s = "checked-out" := by
  unfold statusNotifTitle
  by_cases h1 : s = "cancelled"
  · simp [h1]
  · by_cases h2 : s = "checked-in"
    · simp [h2]
    · by_cases h3 : s = "checked-out"
      · simp [h3]
      · simp [h1, h2, h3]

theorem paymentNotifTitle_ne_empty_iff (ps : String) :
    paymentNotifTitle ps ≠ "" ↔ ps = "paid" ∨ ps = "failed" := by
  unfold paymentNotifTitle
  by_cases h1 : ps = "paid"
  · simp [h1]
  · by_cases h2 : ps = "failed"
    · simp [h2]
    · simp [h1, h2]

/-- C24, as stated, fails: when Notification.create throws, the owner's cancellation is
saved (status cancelled, cancelledAt 5) but the request ends on the error path, and
the same happens to the owner's payment-status update to paid. -/
theorem c24_notification_failure_refuted :
    patchStatus [sampleBooking "101" 10 30 "confirmed"] ⟨"u1", "user"⟩ 0
        (some "cancelled") 5 true
      = ([{ sampleBooking "101" 10 30 "confirmed" with
            status := "cancelled", cancelledAt := some 5 }], .failed)
    ∧ patchPaymentStatus [sampleBooking "101" 10 30 "confirmed"] ⟨"u1", "user"⟩ 0
        (some "paid") true
      = ([{ sampleBooking "101" 10 30 "confirmed" with paymentStatus := "paid" }],
         .failed) := by
  decide

/-- C24, amended: for every valid request of the owner, when Notification.create throws
the booking is still saved with the new value, but the request ends on the error path
whenever the transition emits a notification (status cancelled, checked-in or
checked-out; paymentStatus paid or failed); it is answered 200 with the saved booking
only when no notification is emitted (status pending or confirmed; paymentStatus
pending). -/
theorem c24_notification_failure_outcome (store : Store) (user : User) (id : Nat)
    (booking : Booking) (s ps : String) (now : Int)
    (hb : store[id]? = some booking) (hown : booking.userId = user.id)
    (hs : s ∈ allowedStatuses)
    (hgate : ¬ (s = "checked-in" ∧ booking.idVerified ≠ "approved"))
    (hps : ps ∈ allowedPaymentStatuses) :
    patchStatus store user id (some s) now true
      = (store.set id { booking with
            status := s
            cancelledAt := if s = "cancelled" then some now else none },
         if s = "cancelled" ∨ s = "checked-in" ∨ s = "checked-out" then .failed
         else .ok 200 { booking with
            status := s
            cancelledAt := if s = "cancelled" then some now else none })
    ∧ patchPaymentStatus store user id (some ps) true
      = (store.set id { booking with paymentStatus := ps },
         if ps = "paid" ∨ ps = "failed" then .failed
         else .ok 200 { booking with paymentStatus := ps }) := by
  constructor
  · rw [patchStatus_accepted store user id booking s now true hb hown hs hgate]
    by_cases h : s = "cancelled" ∨ s = "checked-in" ∨ s = "checked-out"
    · have h2 := (statusNotifTitle_ne_empty_iff s).mpr h
      simp only [h2, h, ne_eq, not_false_eq_true, and_self, if_true]
    · have h2 : statusNotifTitle s = "" := by
        by_contra hc
        exact h ((statusNotifTitle_ne_empty_iff s).mp hc)
      simp only [h2, h, ne_eq, not_true_eq_false, false_and, if_false]
  · rw [patchPaymentStatus_accepted store user id booking ps true hb hown hps]
    by_cases h : ps = "paid" ∨ ps = "failed"
    · have h2 := (paymentNotifTitle_ne_empty_iff ps).mpr h
      simp only [h2, h, ne_eq, not_false_eq_true, and_self, if_true]
    · have h2 : paymentNotifTitle ps = "" := by
        by_contra hc
        exact h ((paymentNotifTitle_ne_empty_iff ps).mp hc)
      simp only [h2, h, ne_eq, not_true_eq_false, false_and, if_false]

/-- C24, amended, on a check-out and a payment failure reported by the owner while
Notification.create throws. -/
theorem c24_notification_failure_outcome_witness :
    patchStatus [sampleBooking "101" 10 30 "checked-in"] ⟨"u1", "user"⟩ 0
        (some "checked-out") 8 true
      = ([sampleBooking "101" 10 30 "checked-in"].set 0
            { sampleBooking "101" 10 30 "checked-in" with
              status := "checked-out"
              cancelledAt := if "checked-out" = "cancelled" then some 8 else none },
         if "checked-out" = "cancelled" ∨ "checked-out" = "checked-in"
            ∨ "checked-out" = "checked-out" then .failed
         else .ok 200 { sampleBooking "101" 10 30 "checked-in" with
              status := "checked-out"
              cancelledAt := if "checked-out" = "cancelled" then some 8 else none })
    ∧ patchPaymentStatus [sampleBooking "101" 10 30 "checked-in"] ⟨"u1", "user"⟩ 0
        (some "failed") true
      = ([sampleBooking "101" 10 30 "checked-in"].set 0
            { sampleBooking "101" 10 30 "checked-in" with paymentStatus := "failed" },
         if "failed" = "paid" ∨ "failed" = "failed" then .failed
         else .ok 200 { sampleBooking "101" 10 30 "checked-in" with
              paymentStatus := "failed" }) :=
  c24_notification_failure_outcome [sampleBooking "101" 10 30 "checked-in"]
    ⟨"u1", "user"⟩ 0 (sampleBooking "101" 10 30 "checked-in") "checked-out" "failed" 8
    rfl rfl (by decide) (by decide) (by decide)

/-! ## C25 -/

theorem intervalsOverlap_comm (a b : Booking) :
    intervalsOverlap a b = intervalsOverlap b a := by
  simp only [intervalsOverlap]
  rw [Bool.eq_iff_iff]
  simp only [Bool.and_eq_true, decide_eq_true_eq]
  constructor <;> intro h <;> exact ⟨by omega, by omega⟩

/-- C25: the filter of the resolver's query and of the creation pre-check selects a
booking b for the candidate [ci, co) exactly when b is of the room, its status is
pending, confirmed or checked-in, it has no cancelledAt, and b.checkIn < co and
b.checkOut > ci.  The resolver's query returns the bookings of the store that pass,
the pre-check finds one exactly when one exists.  The interval test is symmetric, and
a booking that ends at ci or starts at co does not pass. -/
theorem c25_conflict_test (store : Store) (roomId : String) (ci co : Int) (b : Booking) :
    (overlapFilter roomId ci co b = true ↔
      b.roomId = roomId
      ∧ (b.status = "pending" ∨ b.status = "confirmed" ∨ b.status = "checked-in")
      ∧ b.cancelledAt = none ∧ b.checkIn < co ∧ b.checkOut > ci)
    ∧ (b ∈ findOverlaps store roomId ci co ↔
        b ∈ store ∧ overlapFilter roomId ci co b = true)
    ∧ ((store.find? (overlapFilter roomId ci co)).isSome = true ↔
        ∃ x ∈ store, overlapFilter roomId ci co x = true)
    ∧ (∀ x y : Booking, intervalsOverlap x y = intervalsOverlap y x)
    ∧ (∀ x y : Booking, intervalsOverlap x y = true ↔
        x.checkIn < y.checkOut ∧ x.checkOut > y.checkIn)
    ∧ (b.checkOut = ci → overlapFilter roomId ci co b = false)
    ∧ (b.checkIn = co → overlapFilter roomId ci co b = false) := by
  refine ⟨?_, ?_, ?_, intervalsOverlap_comm, ?_, ?_, ?_⟩
  · simp [overlapFilter, ACTIVE_BOOKING_STATUSES, and_assoc]
  · simp [findOverlaps, List.mem_filter]
  · exact List.find?_isSome
  · intro x y
    simp [intervalsOverlap]
  · intro h
    simp [overlapFilter, h]
  · intro h
    simp [overlapFilter, h]

/-! ## C26 -/

theorem candidateStarts_of_free (store : Store) (roomId : String) (d : Int) (rounds : Nat)
    (ci co : Int) (h : isFree store roomId ci co) :
    candidateStarts store roomId d rounds ci co = [ci] := by
  cases rounds with
  | zero => rfl
  | succ n =>
    have h0 := (findOverlaps_length_eq_zero_iff store roomId ci co).mpr h
    simp [candidateStarts, h0]

theorem candidateStarts_of_conflict (store : Store) (roomId : String) (d : Int) (n : Nat)
    (ci co : Int) (h : ¬ isFree store roomId ci co) :
    candidateStarts store roomId d (n + 1) ci co
      = ci :: candidateStarts store roomId d n
          (latestCheckOut (findOverlaps store roomId ci co) co)
          (latestCheckOut (findOverlaps store roomId ci co) co + d) := by
  have h0 : ¬ (findOverlaps store roomId ci co).length = 0 := by
    rw [findOverlaps_length_eq_zero_iff]; exact h
  simp [candidateStarts, h0]

theorem candidateStarts_ge (store : Store) (roomId : String) (d : Int) (hd : 0 < d)
    (rounds : Nat) (ci co : Int) (hco : co = ci + d) :
    ∀ x ∈ candidateStarts store roomId d rounds ci co, ci ≤ x := by
  induction rounds generalizing ci co with
  | zero => intro x hx; simp [candidateStarts] at hx; omega
  | succ n ih =>
    intro x hx
    by_cases hfree : isFree store roomId ci co
    · rw [candidateStarts_of_free store roomId d (n + 1) ci co hfree] at hx
      simp at hx; omega
    · rw [candidateStarts_of_conflict store roomId d n ci co hfree] at hx
      rcases List.mem_cons.mp hx with h | h
      · omega
      · have h1 := ih _ _ rfl x h
        have h2 := seed_le_latestCheckOut (findOverlaps store roomId ci co) co
        omega

theorem candidateStarts_increasing (store : Store) (roomId : String) (d : Int) (hd : 0 < d)
    (rounds : Nat) (ci co : Int) (hco : co = ci + d) :
    (candidateStarts store roomId d rounds ci co).Pairwise (fun x y => x < y) := by
  induction rounds generalizing ci co with
  | zero => simp [candidateStarts]
  | succ n ih =>
    by_cases hfree : isFree store roomId ci co
    · rw [candidateStarts_of_free store roomId d (n + 1) ci co hfree]; simp
    · rw [candidateStarts_of_conflict store roomId d n ci co hfree, List.pairwise_cons]
      refine ⟨?_, ih _ _ rfl⟩
      intro x hx
      have h1 := candidateStarts_ge store roomId d hd n _ _ rfl x hx
      have h2 := seed_le_latestCheckOut (findOverlaps store roomId ci co) co
      omega

theorem candidateStarts_getLast (store : Store) (roomId : String) (d : Int)
    (rounds : Nat) (ci co : Int) :
    (candidateStarts store roomId d rounds ci co).getLast?
      = some (searchLoop store roomId d rounds ci co).1 := by
  induction rounds generalizing ci co with
  | zero => rfl
  | succ n ih =>
    by_cases hfree : isFree store roomId ci co
    · rw [candidateStarts_of_free store roomId d (n + 1) ci co hfree,
        searchLoop_of_free store roomId d (n + 1) ci co hfree]
      rfl
    · rw [candidateStarts_of_conflict store roomId d n ci co hfree,
        searchLoop_of_conflict store roomId d n ci co hfree, ← ih]
      cases hc : candidateStarts store roomId d n
          (latestCheckOut (findOverlaps store roomId ci co) co)
          (latestCheckOut (findOverlaps store roomId ci co) co + d) with
      | nil =>
        have := ih (latestCheckOut (findOverlaps store roomId ci co) co)
          (latestCheckOut (findOverlaps store roomId ci co) co + d)
        rw [hc] at this
        simp at this
      | cons y ys => simp [List.getLast?_cons_cons]

theorem candidateStarts_head (store : Store) (roomId : String) (d : Int)
    (rounds : Nat) (ci co : Int) :
    (candidateStarts store roomId d rounds ci co).head? = some ci := by
  cases rounds with
  | zero => rfl
  | succ n =>
    by_cases hfree : isFree store roomId ci co
    · rw [candidateStarts_of_free store roomId d (n + 1) ci co hfree]; rfl
    · rw [candidateStarts_of_conflict store roomId d n ci co hfree]; rfl

/-- C26: for a request of positive duration D, a round on the candidate [a, a + D) that
finds a conflict moves to a check-in strictly later than a; the candidate check-ins
the loop goes through, from the requested one to the returned one, are strictly
increasing. -/
theorem c26_forward_progress (store : Store) (roomId : String) (ci co : Int)
    (hD : 0 < co - ci) :
    (∀ a : Int, ¬ isFree store roomId a (a + (co - ci)) →
      a < latestCheckOut (findOverlaps store roomId a (a + (co - ci))) (a + (co - ci)))
    ∧ (candidateStarts store roomId (co - ci) 50 ci co).Pairwise (fun x y => x < y)
    ∧ (candidateStarts store roomId (co - ci) 50 ci co).head? = some ci
    ∧ (∃ b, findNextAvailableRoomDates store roomId (some ci) (some co)
          = (some (searchLoop store roomId (co - ci) 50 ci co).1, some b)
        ∧ (candidateStarts store roomId (co - ci) 50 ci co).getLast?
          = some (searchLoop store roomId (co - ci) 50 ci co).1) := by
  refine ⟨?_, candidateStarts_increasing store roomId (co - ci) hD 50 ci co (by omega),
    candidateStarts_head store roomId (co - ci) 50 ci co,
    ⟨_, findNext_of_pos store roomId ci co hD,
      candidateStarts_getLast store roomId (co - ci) 50 ci co⟩⟩
  intro a _
  have h := seed_le_latestCheckOut (findOverlaps store roomId a (a + (co - ci)))
    (a + (co - ci))
  omega

/-- C26 on the request [0,1) against three back-to-back unit bookings. -/
theorem c26_forward_progress_witness :
    (candidateStarts (unitChain "12" 0 3) "12" (1 - 0) 50 0 1).Pairwise (fun x y => x < y) :=
  (c26_forward_progress (unitChain "12" 0 3) "12" 0 1 (by decide)).2.1

/-! ## C27 -/

/-- C27: for every request of positive duration and every store in which the room has
at most 50 active bookings, the returned interval overlaps no active booking of the
room; each shifting round moves the candidate check-in to or past the checkOut of
every booking found in conflict. -/
theorem c27_free_within_cap (store : Store) (roomId : String) (ci co : Int)
    (hD : 0 < co - ci) (hlen : (activeBookingsOf store roomId).length ≤ 50) :
    (∃ a b, findNextAvailableRoomDates store roomId (some ci) (some co) = (some a, some b)
      ∧ ∀ bk ∈ store, bk.roomId = roomId → isActive bk = true →
          ¬ (bk.checkIn < b ∧ bk.checkOut > a))
    ∧ (∀ (a b : Int) (bk : Booking), bk ∈ findOverlaps store roomId a b →
        bk.checkOut ≤ latestCheckOut (findOverlaps store roomId a b) b) := by
  constructor
  · refine ⟨_, _, findNext_of_pos store roomId ci co hD, ?_⟩
    have hfree := findNext_isFree_of_length_le store roomId ci co hD hlen
    intro bk hbk hroom hact hov
    have h1 := hfree bk hbk
    have h2 := (overlapFilter_eq_true_iff roomId _ _ bk).mpr ⟨hroom, hact, hov.1, hov.2⟩
    rw [h1] at h2
    cases h2
  · intro a b bk hbk
    exact checkOut_le_latestCheckOut _ b bk hbk

/-- C27 on the request [0,1) against two back-to-back unit bookings. -/
theorem c27_free_within_cap_witness :
    ∃ a b, findNextAvailableRoomDates (unitChain "7" 0 2) "7" (some 0) (some 1)
        = (some a, some b)
      ∧ ∀ bk ∈ unitChain "7" 0 2, bk.roomId = "7" → isActive bk = true →
          ¬ (bk.checkIn < b ∧ bk.checkOut > a) :=
  (c27_free_within_cap (unitChain "7" 0 2) "7" 0 1 (by decide) (by decide)).1

/-! ## C28 -/

theorem searchLoop_same_or_past (store : Store) (roomId : String) (d : Int) (hd : 0 < d)
    (rounds : Nat) (ci co : Int) (hco : co = ci + d) :
    searchLoop store roomId d rounds ci co = (ci, co)
    ∨ co ≤ (searchLoop store roomId d rounds ci co).1 := by
  induction rounds generalizing ci co with
  | zero => left; rfl
  | succ n ih =>
    by_cases hfree : isFree store roomId ci co
    · left; exact searchLoop_of_free store roomId d (n + 1) ci co hfree
    · right
      rw [searchLoop_of_conflict store roomId d n ci co hfree]
      have h2 := seed_le_latestCheckOut (findOverlaps store roomId ci co) co
      rcases ih (latestCheckOut (findOverlaps store roomId ci co) co)
          (latestCheckOut (findOverlaps store roomId ci co) co + d) rfl with h | h
      · rw [h]; exact h2
      · omega

/-- C28: for every request [ci, co) of positive duration the returned interval is the
requested one or starts at or after co; in both cases its checkIn is not earlier than
ci. -/
theorem c28_same_or_past_checkOut (store : Store) (roomId : String) (ci co : Int)
    (hD : 0 < co - ci) :
    ∃ a b, findNextAvailableRoomDates store roomId (some ci) (some co) = (some a, some b)
      ∧ ((a = ci ∧ b = co) ∨ co ≤ a) ∧ ci ≤ a := by
  refine ⟨_, _, findNext_of_pos store roomId ci co hD, ?_⟩
  rcases searchLoop_same_or_past store roomId (co - ci) hD 50 ci co (by omega) with h | h
  · rw [h]; exact ⟨Or.inl ⟨rfl, rfl⟩, le_refl _⟩
  · exact ⟨Or.inr h, by omega⟩

/-- C28 on the request [20, 40) against the booking [10, 30): the result starts at 40. -/
theorem c28_same_or_past_checkOut_witness :
    ∃ a b, findNextAvailableRoomDates [sampleBooking "3" 10 30 "confirmed"] "3"
        (some 20) (some 40) = (some a, some b)
      ∧ ((a = 20 ∧ b = 40) ∨ 40 ≤ a) ∧ 20 ≤ a :=
  c28_same_or_past_checkOut [sampleBooking "3" 10 30 "confirmed"] "3" 20 40 (by decide)

/-! ## C29 -/

theorem latestCheckOut_eq_seed_or_mem (overlaps : List Booking) (seed : Int) :
    latestCheckOut overlaps seed = seed
    ∨ ∃ b ∈ overlaps, latestCheckOut overlaps seed = b.checkOut := by
  induction overlaps generalizing seed with
  | nil => left; rfl
  | cons a rest ih =>
    rw [latestCheckOut_cons]
    rcases ih (if a.checkOut > seed then a.checkOut else seed) with h | ⟨b, hb, h⟩
    · by_cases hc : a.checkOut > seed
      · right
        rw [if_pos hc] at h ⊢
        exact ⟨a, List.mem_cons_self _ _, h⟩
      · left
        rw [if_neg hc] at h ⊢
        exact h
    · right
      exact ⟨b, List.mem_cons_of_mem _ hb, h⟩

theorem latestCheckOut_le_of_subset (l1 l2 : List Booking) (seed : Int)
    (h : ∀ b, b ∈ l1 → b ∈ l2) : latestCheckOut l1 seed ≤ latestCheckOut l2 seed := by
  rcases latestCheckOut_eq_seed_or_mem l1 seed with h1 | ⟨b, hb, h1⟩
  · rw [h1]; exact seed_le_latestCheckOut l2 seed
  · rw [h1]; exact checkOut_le_latestCheckOut l2 seed b (h b hb)

theorem mem_activeBookingsOf (store : Store) (roomId : String) (b : Booking) :
    b ∈ activeBookingsOf store roomId ↔ b ∈ store ∧ b.roomId = roomId ∧ isActive b = true := by
  simp [activeBookingsOf, List.mem_filter]

theorem mem_findOverlaps_iff (store : Store) (roomId : String) (ci co : Int) (b : Booking) :
    b ∈ findOverlaps store roomId ci co ↔
      b ∈ activeBookingsOf store roomId ∧ b.checkIn < co ∧ b.checkOut > ci := by
  rw [mem_activeBookingsOf]
  simp only [findOverlaps, List.mem_filter, overlapFilter_eq_true_iff]
  constructor
  · rintro ⟨h1, h2, h3, h4, h5⟩; exact ⟨⟨h1, h2, h3⟩, h4, h5⟩
  · rintro ⟨⟨h1, h2, h3⟩, h4, h5⟩; exact ⟨h1, h2, h3, h4, h5⟩

theorem isFree_iff_no_overlaps (store : Store) (roomId : String) (ci co : Int) :
    isFree store roomId ci co ↔ ∀ b, b ∉ findOverlaps store roomId ci co := by
  rw [← findOverlaps_eq_nil_iff, List.eq_nil_iff_forall_not_mem]

theorem searchLoop_congr (s1 s2 : Store) (roomId : String) (d : Int)
    (h : ∀ b, b ∈ activeBookingsOf s1 roomId ↔ b ∈ activeBookingsOf s2 roomId)
    (rounds : Nat) (ci co : Int) :
    searchLoop s1 roomId d rounds ci co = searchLoop s2 roomId d rounds ci co := by
  have hmem : ∀ (a b : Int) (x : Booking),
      x ∈ findOverlaps s1 roomId a b ↔ x ∈ findOverlaps s2 roomId a b := by
    intro a b x
    rw [mem_findOverlaps_iff, mem_findOverlaps_iff, h x]
  induction rounds generalizing ci co with
  | zero => rfl
  | succ n ih =>
    have hfree : isFree s1 roomId ci co ↔ isFree s2 roomId ci co := by
      rw [isFree_iff_no_overlaps, isFree_iff_no_overlaps]
      constructor
      · intro hf x hx; exact hf x ((hmem ci co x).mpr hx)
      · intro hf x hx; exact hf x ((hmem ci co x).mp hx)
    by_cases hf : isFree s1 roomId ci co
    · rw [searchLoop_of_free s1 roomId d (n + 1) ci co hf,
        searchLoop_of_free s2 roomId d (n + 1) ci co (hfree.mp hf)]
    · have hf2 : ¬ isFree s2 roomId ci co := fun hc => hf (hfree.mpr hc)
      have hl : latestCheckOut (findOverlaps s1 roomId ci co) co
          = latestCheckOut (findOverlaps s2 roomId ci co) co :=
        le_antisymm
          (latestCheckOut_le_of_subset _ _ co (fun x hx => (hmem ci co x).mp hx))
          (latestCheckOut_le_of_subset _ _ co (fun x hx => (hmem ci co x).mpr hx))
      rw [searchLoop_of_conflict s1 roomId d n ci co hf,
        searchLoop_of_conflict s2 roomId d n ci co hf2, hl]
      exact ih _ _

theorem findNext_congr (s1 s2 : Store) (roomId : String)
    (h : ∀ b, b ∈ activeBookingsOf s1 roomId ↔ b ∈ activeBookingsOf s2 roomId)
    (checkInDate checkOutDate : JsDate) :
    findNextAvailableRoomDates s1 roomId checkInDate checkOutDate
      = findNextAvailableRoomDates s2 roomId checkInDate checkOutDate := by
  cases checkInDate with
  | none => rfl
  | some ci =>
    cases checkOutDate with
    | none => rfl
    | some co =>
      by_cases hD : co - ci ≤ 0
      · simp [findNextAvailableRoomDates, hD]
      · simp only [findNextAvailableRoomDates, hD, if_false]
        rw [searchLoop_congr s1 s2 roomId (co - ci) h 50 ci co]

/-- C29: two stores with the same active bookings of the requested room (the same
documents, in any order and number) give the same result for the same request; in
particular a booking of another room, or one that is not active (status cancelled or
checked-out, or carrying cancelledAt), can be added to the store without changing
the result. -/
theorem c29_inactive_data_ignored (s1 s2 : Store) (roomId : String)
    (checkInDate checkOutDate : JsDate)
    (h : ∀ b, b ∈ activeBookingsOf s1 roomId ↔ b ∈ activeBookingsOf s2 roomId) :
    findNextAvailableRoomDates s1 roomId checkInDate checkOutDate
      = findNextAvailableRoomDates s2 roomId checkInDate checkOutDate
    ∧ (∀ x : Booking, (x.roomId ≠ roomId ∨ isActive x = false) →
        findNextAvailableRoomDates (x :: s1) roomId checkInDate checkOutDate
          = findNextAvailableRoomDates s2 roomId checkInDate checkOutDate) := by
  refine ⟨findNext_congr s1 s2 roomId h checkInDate checkOutDate, ?_⟩
  intro x hx
  apply findNext_congr
  intro b
  rw [← h b, mem_activeBookingsOf, mem_activeBookingsOf, List.mem_cons]
  constructor
  · rintro ⟨hb | hb, hroom, hact⟩
    · subst hb
      rcases hx with hx | hx
      · exact absurd hroom hx
      · rw [hx] at hact; cases hact
    · exact ⟨hb, hroom, hact⟩
  · rintro ⟨hb, hroom, hact⟩
    exact ⟨Or.inr hb, hroom, hact⟩

/-- C29 on two stores that hold the same active booking of room 101, the second one
also a cancelled booking of that room and an active booking of room 102. -/
theorem c29_inactive_data_ignored_witness :
    findNextAvailableRoomDates [sampleBooking "101" 10 30 "confirmed"] "101"
        (some 20) (some 40)
      = findNextAvailableRoomDates
          [sampleBooking "101" 35 60 "cancelled", sampleBooking "101" 10 30 "confirmed",
           sampleBooking "102" 35 60 "confirmed"] "101" (some 20) (some 40) :=
  (c29_inactive_data_ignored [sampleBooking "101" 10 30 "confirmed"]
    [sampleBooking "101" 35 60 "cancelled", sampleBooking "101" 10 30 "confirmed",
     sampleBooking "102" 35 60 "confirmed"] "101" (some 20) (some 40)
    (by
      intro b
      have e : activeBookingsOf
          [sampleBooking "101" 35 60 "cancelled", sampleBooking "101" 10 30 "confirmed",
           sampleBooking "102" 35 60 "confirmed"] "101"
          = activeBookingsOf [sampleBooking "101" 10 30 "confirmed"] "101" := by decide
      rw [e])).1

/-! ## The checked resolver against exact arithmetic -/

theorem dateOfTime_of_range (t : Int) (h1 : -maxTimeValue ≤ t) (h2 : t ≤ maxTimeValue) :
    dateOfTime t = some t := by
  simp [dateOfTime, h1, h2]

theorem dateOfTime_eq_some (t x : Int) (h : dateOfTime t = some x) : x = t := by
  unfold dateOfTime at h
  split at h
  · injection h with h; exact h.symm
  · cases h

theorem searchLoopChecked_none (store : Store) (roomId : String) (d : Int) (rounds : Nat)
    (ci : Int) (issued : Nat) (a : JsDate) (b : Int) :
    (searchLoopChecked store roomId d rounds ci none issued).outcome
      ≠ .returned a (some b) := by
  cases rounds with
  | zero => simp [searchLoopChecked]
  | succ n => simp [searchLoopChecked]

theorem searchLoopChecked_of_free (store : Store) (roomId : String) (d : Int) (n : Nat)
    (ci co : Int) (issued : Nat) (h : isFree store roomId ci co) :
    searchLoopChecked store roomId d (n + 1) ci (some co) issued
      = { outcome := .returned (some ci) (some co), queries := issued + 1 } := by
  have h0 := (findOverlaps_length_eq_zero_iff store roomId ci co).mpr h
  simp [searchLoopChecked, h0]

theorem searchLoopChecked_of_conflict (store : Store) (roomId : String) (d : Int) (n : Nat)
    (ci co : Int) (issued : Nat) (h : ¬ isFree store roomId ci co) :
    searchLoopChecked store roomId d (n + 1) ci (some co) issued
      = searchLoopChecked store roomId d n
          (latestCheckOut (findOverlaps store roomId ci co) co)
          (dateOfTime (latestCheckOut (findOverlaps store roomId ci co) co + d))
          (issued + 1) := by
  have h0 : ¬ (findOverlaps store roomId ci co).length = 0 := by
    rw [findOverlaps_length_eq_zero_iff]; exact h
  simp [searchLoopChecked, h0]

/-- Whenever the checked loop returns two valid dates they are the dates of the loop in
exact arithmetic. -/
theorem searchLoopChecked_returned (store : Store) (roomId : String) (d : Int)
    (rounds : Nat) (ci co : Int) (issued : Nat) (a b : Int)
    (h : (searchLoopChecked store roomId d rounds ci (some co) issued).outcome
      = .returned (some a) (some b)) :
    searchLoop store roomId d rounds ci co = (a, b) := by
  induction rounds generalizing ci co issued with
  | zero =>
    simp only [searchLoopChecked] at h
    injection h with h1 h2
    injection h1 with h1
    injection h2 with h2
    simp [searchLoop, h1, h2]
  | succ n ih =>
    by_cases hfree : isFree store roomId ci co
    · rw [searchLoopChecked_of_free store roomId d n ci co issued hfree] at h
      rw [searchLoop_of_free store roomId d (n + 1) ci co hfree]
      injection h with h1 h2
      injection h1 with h1
      injection h2 with h2
      rw [h1, h2]
    · rw [searchLoopChecked_of_conflict store roomId d n ci co issued hfree] at h
      rw [searchLoop_of_conflict store roomId d n ci co hfree]
      cases hdate : dateOfTime (latestCheckOut (findOverlaps store roomId ci co) co + d) with
      | none =>
        rw [hdate] at h
        exact absurd h (searchLoopChecked_none store roomId d n _ _ _ _)
      | some x =>
        rw [hdate] at h
        have hx := dateOfTime_eq_some _ _ hdate
        subst hx
        exact ih _ _ _ h

theorem searchLoop_snd_ge (store : Store) (roomId : String) (d : Int) (hd : 0 < d)
    (rounds : Nat) (ci co : Int) (hco : co = ci + d) :
    co ≤ (searchLoop store roomId d rounds ci co).2 := by
  have hdur := searchLoop_duration store roomId d rounds ci co hco
  rcases searchLoop_same_or_past store roomId d hd rounds ci co hco with h | h
  · rw [h]
  · omega

/-- Whenever the dates of the loop in exact arithmetic stay within the range of a
Date, the checked loop returns them. -/
theorem searchLoopChecked_of_range (store : Store) (roomId : String) (d : Int)
    (hd : 0 < d) (rounds : Nat) (ci co : Int) (issued : Nat) (hco : co = ci + d)
    (hlow : -maxTimeValue ≤ co)
    (hhigh : (searchLoop store roomId d rounds ci co).2 ≤ maxTimeValue) :
    (searchLoopChecked store roomId d rounds ci (some co) issued).outcome
      = .returned (some (searchLoop store roomId d rounds ci co).1)
          (some (searchLoop store roomId d rounds ci co).2) := by
  induction rounds generalizing ci co issued with
  | zero => rfl
  | succ n ih =>
    by_cases hfree : isFree store roomId ci co
    · rw [searchLoopChecked_of_free store roomId d n ci co issued hfree,
        searchLoop_of_free store roomId d (n + 1) ci co hfree]
    · rw [searchLoop_of_conflict store roomId d n ci co hfree] at hhigh ⊢
      rw [searchLoopChecked_of_conflict store roomId d n ci co issued hfree]
      have hseed := seed_le_latestCheckOut (findOverlaps store roomId ci co) co
      have hge := searchLoop_snd_ge store roomId d hd n
        (latestCheckOut (findOverlaps store roomId ci co) co)
        (latestCheckOut (findOverlaps store roomId ci co) co + d) rfl
      rw [dateOfTime_of_range _ (by omega) (by omega)]
      exact ih _ _ _ rfl (by omega) hhigh

theorem searchLoopChecked_queries_le (store : Store) (roomId : String) (d : Int)
    (rounds : Nat) (ci : Int) (co : JsDate) (issued : Nat) :
    (searchLoopChecked store roomId d rounds ci co issued).queries ≤ issued + rounds := by
  induction rounds generalizing ci co issued with
  | zero => simp [searchLoopChecked]
  | succ n ih =>
    cases co with
    | none => simp only [searchLoopChecked]; omega
    | some c =>
      by_cases hfree : isFree store roomId ci c
      · rw [searchLoopChecked_of_free store roomId d n ci c issued hfree]
        simp only []; omega
      · rw [searchLoopChecked_of_conflict store roomId d n ci c issued hfree]
        have := ih (latestCheckOut (findOverlaps store roomId ci c) c)
          (dateOfTime (latestCheckOut (findOverlaps store roomId ci c) c + d)) (issued + 1)
        omega

theorem findNextChecked_of_pos (store : Store) (roomId : String) (ci co : Int)
    (hD : 0 < co - ci) :
    findNextAvailableRoomDatesChecked store roomId (some ci) (some co)
      = searchLoopChecked store roomId (co - ci) 50 ci (some co) 0 := by
  have h : ¬ co - ci ≤ 0 := by omega
  simp [findNextAvailableRoomDatesChecked, h]

theorem findNextChecked_early (store : Store) (roomId : String)
    (checkInDate checkOutDate : JsDate)
    (h : checkInDate = none ∨ checkOutDate = none
      ∨ ∃ ci co, checkInDate = some ci ∧ checkOutDate = some co ∧ co - ci ≤ 0) :
    findNextAvailableRoomDatesChecked store roomId checkInDate checkOutDate
      = { outcome := .returned checkInDate checkOutDate, queries := 0 } := by
  rcases h with h | h | ⟨ci, co, h1, h2, h3⟩
  · subst h; cases checkOutDate <;> rfl
  · subst h; cases checkInDate <;> rfl
  · subst h1; subst h2
    simp [findNextAvailableRoomDatesChecked, h3]

theorem findNextChecked_returned (store : Store) (roomId : String) (ci co a b : Int)
    (h : (findNextAvailableRoomDatesChecked store roomId (some ci) (some co)).outcome
      = .returned (some a) (some b)) :
    findNextAvailableRoomDates store roomId (some ci) (some co) = (some a, some b) := by
  by_cases hD : co - ci ≤ 0
  · rw [findNextChecked_early store roomId (some ci) (some co)
      (Or.inr (Or.inr ⟨ci, co, rfl, rfl, hD⟩))] at h
    simp only [findNextAvailableRoomDates, hD, if_true]
    injection h with h1 h2
    rw [h1, h2]
  · rw [findNextChecked_of_pos store roomId ci co (by omega)] at h
    rw [findNext_of_pos store roomId ci co (by omega),
      searchLoopChecked_returned store roomId (co - ci) 50 ci co 0 a b h]

/-! ## C5 -/

set_option maxRecDepth 1000000 in
/-- C5, as stated, fails at the end of the range of a Date: with the 50 back-to-back
unit bookings that end at 8.64e15 ms on room 101, the request for the first of them
(duration 1 ms) reaches the cap after 50 queries and comes back with checkIn 8.64e15
and an Invalid checkOut, so the returned duration is not 1. -/
theorem c5_duration_lost_past_range :
    findNextAvailableRoomDatesChecked (unitChain "101" 8639999999999950 50) "101"
        (some 8639999999999950) (some 8639999999999951)
      = { outcome := .returned (some 8640000000000000) none, queries := 50 } := by
  decide

/-- C5, amended: for every request of positive duration D and every store, whenever the
resolver returns two valid dates their difference is exactly D, shifted or not, cap
reached or not, and they are the dates of the search in exact arithmetic; it does
return two valid dates, with difference D, whenever the requested checkOut is a Date
and the checkOut of the search in exact arithmetic does not pass 8.64e15 ms. -/
theorem c5_duration_preserved_in_range (store : Store) (roomId : String) (ci co : Int)
    (hD : 0 < co - ci) :
    (∀ a b : Int,
      (findNextAvailableRoomDatesChecked store roomId (some ci) (some co)).outcome
        = .returned (some a) (some b) →
      b - a = co - ci
      ∧ findNextAvailableRoomDates store roomId (some ci) (some co) = (some a, some b))
    ∧ (-maxTimeValue ≤ co →
        (searchLoop store roomId (co - ci) 50 ci co).2 ≤ maxTimeValue →
        ∃ a b : Int,
          (findNextAvailableRoomDatesChecked store roomId (some ci) (some co)).outcome
            = .returned (some a) (some b)
          ∧ b - a = co - ci) := by
  have hdur := searchLoop_duration store roomId (co - ci) 50 ci co (by omega)
  constructor
  · intro a b h
    rw [findNextChecked_of_pos store roomId ci co hD] at h
    have hr := searchLoopChecked_returned store roomId (co - ci) 50 ci co 0 a b h
    rw [hr] at hdur
    refine ⟨by simp only [] at hdur; omega, ?_⟩
    rw [findNext_of_pos store roomId ci co hD, hr]
  · intro hlow hhigh
    refine ⟨(searchLoop store roomId (co - ci) 50 ci co).1,
      (searchLoop store roomId (co - ci) 50 ci co).2, ?_, by omega⟩
    rw [findNextChecked_of_pos store roomId ci co hD]
    exact searchLoopChecked_of_range store roomId (co - ci) hD 50 ci co 0 (by omega)
      hlow hhigh

/-- C5, amended, on a request that is shifted: [40, 47) against [0, 100). -/
theorem c5_duration_preserved_in_range_witness :
    ∃ a b : Int,
      (findNextAvailableRoomDatesChecked [sampleBooking "5" 0 100 "checked-in"] "5"
          (some 40) (some 47)).outcome = .returned (some a) (some b)
      ∧ b - a = 47 - 40 :=
  (c5_duration_preserved_in_range [sampleBooking "5" 0 100 "checked-in"] "5" 40 47
    (by decide)).2 (by decide) (by decide)

/-! ## C8 -/

/-- C8, as stated, fails at the end of the range of a Date: with the booking
[8639999999999980, 8640000000000000) on room 101, the request
[8639999999999990, 8640000000000000) is shifted to checkIn 8.64e15 with an Invalid
checkOut, and the query of the second round is refused: the resolver throws after two
queries and returns no interval. -/
theorem c8_resolver_throws_past_range :
    findNextAvailableRoomDatesChecked
        [sampleBooking "101" 8639999999999980 8640000000000000 "confirmed"] "101"
        (some 8639999999999990) (some 8640000000000000)
      = { outcome := .threw, queries := 2 } := by
  decide

/-- C8, amended: on every input the resolver ends after at most 50 queries.  With an
invalid date or a duration that is not positive it returns its arguments without any
query.  With a positive duration it returns an interval, also when the cap is
exhausted, whenever the requested checkOut is a Date and the checkOut of the search in
exact arithmetic does not pass 8.64e15 ms; it throws only when a shifted checkOut
leaves that range. -/
theorem c8_resolver_bounded_returns_in_range (store : Store) (roomId : String)
    (checkInDate checkOutDate : JsDate) :
    (findNextAvailableRoomDatesChecked store roomId checkInDate checkOutDate).queries ≤ 50
    ∧ ((checkInDate = none ∨ checkOutDate = none
        ∨ ∃ ci co, checkInDate = some ci ∧ checkOutDate = some co ∧ co - ci ≤ 0) →
        findNextAvailableRoomDatesChecked store roomId checkInDate checkOutDate
          = { outcome := .returned checkInDate checkOutDate, queries := 0 })
    ∧ (∀ ci co : Int, checkInDate = some ci → checkOutDate = some co → 0 < co - ci →
        -maxTimeValue ≤ co →
        (searchLoop store roomId (co - ci) 50 ci co).2 ≤ maxTimeValue →
        (findNextAvailableRoomDatesChecked store roomId checkInDate checkOutDate).outcome
          = .returned (some (searchLoop store roomId (co - ci) 50 ci co).1)
              (some (searchLoop store roomId (co - ci) 50 ci co).2))
    ∧ ((findNextAvailableRoomDatesChecked store roomId checkInDate checkOutDate).outcome
          = .threw →
        ∃ ci co : Int, checkInDate = some ci ∧ checkOutDate = some co ∧ 0 < co - ci
          ∧ (co < -maxTimeValue
            ∨ maxTimeValue < (searchLoop store roomId (co - ci) 50 ci co).2)) := by
  have hin : ∀ ci co : Int, checkInDate = some ci → checkOutDate = some co → 0 < co - ci →
      -maxTimeValue ≤ co →
      (searchLoop store roomId (co - ci) 50 ci co).2 ≤ maxTimeValue →
      (findNextAvailableRoomDatesChecked store roomId checkInDate checkOutDate).outcome
        = .returned (some (searchLoop store roomId (co - ci) 50 ci co).1)
            (some (searchLoop store roomId (co - ci) 50 ci co).2) := by
    intro ci co h1 h2 hD hlow hhigh
    subst h1; subst h2
    rw [findNextChecked_of_pos store roomId ci co hD]
    exact searchLoopChecked_of_range store roomId (co - ci) hD 50 ci co 0 (by omega)
      hlow hhigh
  refine ⟨?_, findNextChecked_early store roomId checkInDate checkOutDate, hin, ?_⟩
  · cases checkInDate with
    | none => rw [findNextChecked_early store roomId none checkOutDate (Or.inl rfl)]; simp
    | some ci =>
      cases checkOutDate with
      | none => rw [findNextChecked_early store roomId (some ci) none (Or.inr (Or.inl rfl))]; simp
      | some co =>
        by_cases hD : co - ci ≤ 0
        · rw [findNextChecked_early store roomId (some ci) (some co)
            (Or.inr (Or.inr ⟨ci, co, rfl, rfl, hD⟩))]
          simp
        · rw [findNextChecked_of_pos store roomId ci co (by omega)]
          have h := searchLoopChecked_queries_le store roomId (co - ci) 50 ci (some co) 0
          omega
  · intro hthrew
    cases checkInDate with
    | none =>
      rw [findNextChecked_early store roomId none checkOutDate (Or.inl rfl)] at hthrew
      cases hthrew
    | some ci =>
      cases checkOutDate with
      | none =>
        rw [findNextChecked_early store roomId (some ci) none (Or.inr (Or.inl rfl))] at hthrew
        cases hthrew
      | some co =>
        by_cases hD : co - ci ≤ 0
        · rw [findNextChecked_early store roomId (some ci) (some co)
            (Or.inr (Or.inr ⟨ci, co, rfl, rfl, hD⟩))] at hthrew
          cases hthrew
        · refine ⟨ci, co, rfl, rfl, by omega, ?_⟩
          by_contra hc
          push_neg at hc
          rw [hin ci co rfl rfl (by omega) hc.1 hc.2] at hthrew
          cases hthrew

/-! ## C19 -/

theorem postBookingChecked_of_free (schemaAccepts : CreateBody → Bool) (store : Store)
    (user : User) (body : CreateBody) (now : Int) (ci co : Int)
    (hrole : user.role ≠ "admin")
    (hci : body.checkIn.date = some ci) (hco : body.checkOut.date = some co)
    (hreq : missingRequired body = false) (hfree : isFree store body.roomId ci co) :
    postBookingChecked schemaAccepts store user body now
      = if schemaAccepts body = true then
          (store ++ [newBookingDocument user body ci co now],
           .ok 201 (newBookingDocument user body ci co now))
        else (store, .failed) := by
  have hf := (find?_overlap_eq_none_iff store body.roomId ci co).mpr hfree
  simp [postBookingChecked, hrole, hci, hco, hreq, hf]

theorem postBookingChecked_of_conflict (schemaAccepts : CreateBody → Bool) (store : Store)
    (user : User) (body : CreateBody) (now : Int) (ci co : Int)
    (hrole : user.role ≠ "admin")
    (hci : body.checkIn.date = some ci) (hco : body.checkOut.date = some co)
    (hreq : missingRequired body = false) (hconf : ¬ isFree store body.roomId ci co) :
    postBookingChecked schemaAccepts store user body now
      = match (findNextAvailableRoomDatesChecked store body.roomId (some ci) (some co)).outcome
          with
        | .threw => (store, .failed)
        | .returned (some a) (some b) =>
          if schemaAccepts body = true then
            (store ++ [newBookingDocument user body a b now],
             .ok 201 (newBookingDocument user body a b now))
          else (store, .failed)
        | .returned _ _ => (store, .failed) := by
  have hsome : (store.find? (overlapFilter body.roomId ci co)).isSome = true := by
    cases hf : store.find? (overlapFilter body.roomId ci co) with
    | none => exact absurd ((find?_overlap_eq_none_iff store body.roomId ci co).mp hf) hconf
    | some e => rfl
  simp only [postBookingChecked, hrole, hci, hco, hsome, if_true, if_false, hreq]
  cases (findNextAvailableRoomDatesChecked store body.roomId (some ci) (some co)).outcome with
  | threw => rfl
  | returned x y =>
    cases x with
    | none => simp
    | some a =>
      cases y with
      | none => simp
      | some b => simp

theorem postBookingChecked_of_refusal (schemaAccepts : CreateBody → Bool)
    (store : Store) (user : User) (body : CreateBody) (now : Int) (ci co : Int)
    (hrole : user.role ≠ "admin")
    (hci : body.checkIn.date = some ci) (hco : body.checkOut.date = some co)
    (hreq : missingRequired body = false) (hs : schemaAccepts body = false) :
    postBookingChecked schemaAccepts store user body now = (store, .failed) := by
  by_cases hfree : isFree store body.roomId ci co
  · rw [postBookingChecked_of_free schemaAccepts store user body now ci co hrole hci hco
      hreq hfree]
    simp [hs]
  · rw [postBookingChecked_of_conflict schemaAccepts store user body now ci co hrole hci
      hco hreq hfree]
    cases (findNextAvailableRoomDatesChecked store body.roomId (some ci) (some co)).outcome
      with
    | threw => rfl
    | returned x y =>
      cases x with
      | none => rfl
      | some a =>
        cases y with
        | none => rfl
        | some b => simp [hs]

/-- C19, as stated, fails in two ways.  A body whose checkIn is a
non-empty value that is not a date passes the field validation and creates no booking.
A complete body with valid dates, [8639999999999990, 8640000000000000) on room 101
booked for [8639999999999980, 8640000000000000), passes the field validation too; the
resolver is called for the conflict and throws, and the request ends on the error path
with no booking created. -/
theorem c19_validated_request_not_created :
    (missingRequired { sampleBody "101" 10 30 with checkIn := ⟨true, none⟩ } = false
      ∧ postBookingChecked (fun _ => true) [] ⟨"u1", "user"⟩
          { sampleBody "101" 10 30 with checkIn := ⟨true, none⟩ } 1
        = ([], .failed))
    ∧ (missingRequired (sampleBody "101" 8639999999999990 8640000000000000) = false
      ∧ postBookingChecked (fun _ => true)
          [sampleBooking "101" 8639999999999980 8640000000000000 "confirmed"]
          ⟨"u2", "user"⟩ (sampleBody "101" 8639999999999990 8640000000000000) 1
        = ([sampleBooking "101" 8639999999999980 8640000000000000 "confirmed"],
           .failed)) := by
  decide

/-- C19, amended: a creation request by a non-admin caller that passes the field
validation and whose checkIn and checkOut parse as dates.  When the requested interval
is free and the schema accepts the body, one booking is appended with the requested
dates and returned with 201.  When an active booking of the room overlaps it, the
resolver is called: if it returns two valid dates and the schema accepts the body, one
booking is appended with exactly those dates and returned with 201; if it throws or
returns an Invalid checkOut, no booking is created and the request ends on the error
path.  When the schema refuses the body, no booking is created either.  A created
booking has status confirmed, paymentStatus pending and the caller's id as userId. -/
theorem c19_creation_outcome_checked (schemaAccepts : CreateBody → Bool) (store : Store)
    (user : User) (body : CreateBody) (now : Int) (ci co : Int)
    (hrole : user.role ≠ "admin")
    (hci : body.checkIn.date = some ci) (hco : body.checkOut.date = some co)
    (hreq : missingRequired body = false) :
    (isFree store body.roomId ci co → schemaAccepts body = true →
      postBookingChecked schemaAccepts store user body now
        = (store ++ [newBookingDocument user body ci co now],
           .ok 201 (newBookingDocument user body ci co now)))
    ∧ (¬ isFree store body.roomId ci co → schemaAccepts body = true →
        ∀ a b : Int,
          (findNextAvailableRoomDatesChecked store body.roomId (some ci) (some co)).outcome
            = .returned (some a) (some b) →
          postBookingChecked schemaAccepts store user body now
            = (store ++ [newBookingDocument user body a b now],
               .ok 201 (newBookingDocument user body a b now)))
    ∧ (¬ isFree store body.roomId ci co →
        ((findNextAvailableRoomDatesChecked store body.roomId (some ci) (some co)).outcome
            = .threw
          ∨ ∃ a, (findNextAvailableRoomDatesChecked store body.roomId (some ci)
              (some co)).outcome = .returned a none) →
        postBookingChecked schemaAccepts store user body now = (store, .failed))
    ∧ (schemaAccepts body = false →
        postBookingChecked schemaAccepts store user body now = (store, .failed))
    ∧ (∀ a b : Int,
        (newBookingDocument user body a b now).status = "confirmed"
        ∧ (newBookingDocument user body a b now).paymentStatus = "pending"
        ∧ (newBookingDocument user body a b now).userId = user.id
        ∧ (newBookingDocument user body a b now).roomId = body.roomId
        ∧ (newBookingDocument user body a b now).checkIn = a
        ∧ (newBookingDocument user body a b now).checkOut = b) := by
  refine ⟨?_, ?_, ?_, ?_, fun _ _ => ⟨rfl, rfl, rfl, rfl, rfl, rfl⟩⟩
  · intro hfree hs
    rw [postBookingChecked_of_free schemaAccepts store user body now ci co hrole hci hco
      hreq hfree, if_pos hs]
  · intro hconf hs a b hout
    rw [postBookingChecked_of_conflict schemaAccepts store user body now ci co hrole hci
      hco hreq hconf, hout]
    simp [hs]
  · intro hconf hout
    rw [postBookingChecked_of_conflict schemaAccepts store user body now ci co hrole hci
      hco hreq hconf]
    rcases hout with h | ⟨a, h⟩
    · rw [h]
    · rw [h]
      cases a <;> rfl
  · intro hs
    by_cases hfree : isFree store body.roomId ci co
    · rw [postBookingChecked_of_free schemaAccepts store user body now ci co hrole hci hco
        hreq hfree]
      simp [hs]
    · rw [postBookingChecked_of_conflict schemaAccepts store user body now ci co hrole hci
        hco hreq hfree]
      cases (findNextAvailableRoomDatesChecked store body.roomId (some ci) (some co)).outcome
        with
      | threw => rfl
      | returned x y =>
        cases x with
        | none => rfl
        | some a =>
          cases y with
          | none => rfl
          | some b => simp [hs]

/-- C19, amended, on a request for [20, 40) that conflicts with the booking [10, 30) and
is stored on [40, 60), the dates the resolver returns. -/
theorem c19_creation_outcome_checked_witness :
    postBookingChecked (fun _ => true) [sampleBooking "101" 10 30 "confirmed"]
        ⟨"u2", "user"⟩ (sampleBody "101" 20 40) 5
      = ([sampleBooking "101" 10 30 "confirmed"]
            ++ [newBookingDocument ⟨"u2", "user"⟩ (sampleBody "101" 20 40) 40 60 5],
         .ok 201 (newBookingDocument ⟨"u2", "user"⟩ (sampleBody "101" 20 40) 40 60 5)) :=
  (c19_creation_outcome_checked (fun _ => true) [sampleBooking "101" 10 30 "confirmed"]
    ⟨"u2", "user"⟩ (sampleBody "101" 20 40) 5 20 40 (by decide) rfl rfl (by decide)).2.1
    (by decide) rfl 40 60 (by decide)

/-- Every creation the checked handler answers with a booking is answered the same way
by the handler in exact arithmetic. -/
theorem postBooking_of_postBookingChecked (schemaAccepts : CreateBody → Bool)
    (store store' : Store) (user : User) (body : CreateBody) (now : Int) (code : Nat)
    (booking : Booking)
    (h : postBookingChecked schemaAccepts store user body now = (store', .ok code booking)) :
    postBooking store user body now = (store', .ok code booking) := by
  by_cases hrole : user.role = "admin"
  · simp [postBookingChecked, hrole] at h
  · cases hci : body.checkIn.date with
    | none => simp [postBookingChecked, hrole, hci] at h
    | some ci =>
      cases hco : body.checkOut.date with
      | none => simp [postBookingChecked, hrole, hci, hco] at h
      | some co =>
        cases hreq : missingRequired body with
        | true =>
          simp only [postBookingChecked, hrole, hci, hco, hreq, if_false, if_true] at h
          split at h
          · cases h
          · cases h
        | false =>
          cases hs : schemaAccepts body with
          | false =>
            rw [(postBookingChecked_of_refusal schemaAccepts store user body now ci co
              hrole hci hco hreq) hs] at h
            cases h
          | true =>
            by_cases hfree : isFree store body.roomId ci co
            · rw [postBookingChecked_of_free schemaAccepts store user body now ci co hrole
                hci hco hreq hfree, if_pos hs] at h
              rw [← h]
              have hf := (find?_overlap_eq_none_iff store body.roomId ci co).mpr hfree
              simp [postBooking, hrole, hci, hco, hreq, hf]
            · rw [postBookingChecked_of_conflict schemaAccepts store user body now ci co
                hrole hci hco hreq hfree] at h
              cases hout : (findNextAvailableRoomDatesChecked store body.roomId (some ci)
                  (some co)).outcome with
              | threw => rw [hout] at h; cases h
              | returned x y =>
                rw [hout] at h
                cases x with
                | none => cases h
                | some a =>
                  cases y with
                  | none => cases h
                  | some b =>
                    simp only [hs, if_true] at h
                    rw [← h]
                    have hres := findNextChecked_returned store body.roomId ci co a b hout
                    have hsome :
                        (store.find? (overlapFilter body.roomId ci co)).isSome = true := by
                      cases hf : store.find? (overlapFilter body.roomId ci co) with
                      | none =>
                        exact absurd
                          ((find?_overlap_eq_none_iff store body.roomId ci co).mp hf) hfree
                      | some e => rfl
                    simp [postBooking, hrole, hci, hco, hreq, hsome, hres]

end HotelBackend
